import Mathlib

/-!
Shallow embedding of the xspec-models-cxc adapter layer
(`src/include/xspec_models_cxc.hh` and `template/xspec.cxx`).

The native XSPEC library is opaque: its behaviour is a parameter (`World`)
recording the environment, the outcome of `FNINIT`, and the values the
settings store returns.  Process-wide observable effects (the one-shot
`ran` flag of the init guard, the current `std::cout` buffer, the number
of `FNINIT` attempts, the native calls performed, fresh buffer
allocation) are threaded through an explicit state `XState`.

Exceptions thrown by the C++ layer become an explicit error type
`XSError` whose constructors are the four exception classes the code
actually uses (`std::runtime_error`, `pybind11::value_error`,
`pybind11::key_error`, `pybind11::index_error`), each carrying the
message built by the source.
-/

namespace xspec_models_cxc

/-- The exception classes the C++ layer throws, with their payloads.
`runtimeError` is `std::runtime_error`, `valueError` is
`pybind11::value_error`, `keyError` is `pybind11::key_error`,
`indexError` is `pybind11::index_error`. -/
inductive XSError where
  | runtimeError (msg : String)
  | valueError (msg : String)
  | keyError (key : String)
  | indexError (msg : String)
deriving DecidableEq, Repr

/-- The Python-visible exception type of an error: the only information a
caller can dispatch on without parsing the message. -/
inductive ErrClass where
  | runtime
  | value
  | key
  | index
deriving DecidableEq, Repr

def errClass : XSError → ErrClass
  | XSError.runtimeError _ => ErrClass.runtime
  | XSError.valueError _ => ErrClass.value
  | XSError.keyError _ => ErrClass.key
  | XSError.indexError _ => ErrClass.index

/-- The spec taxonomy name for the error thrown by `validate_par_size`:
a `std::runtime_error` with the message built at
`xspec_models_cxc.hh:97-99`. -/
def ParameterCountError (expected got : Nat) : XSError :=
  XSError.runtimeError
    ("Expected " ++ toString expected ++ " parameters but sent " ++ toString got)

/-- The spec taxonomy name for the `pybind11::value_error` thrown when an
energy grid has fewer than 3 edges (e.g. `xspec_models_cxc.hh:153-154`). -/
def GridTooSmallError : XSError :=
  XSError.valueError "Expected at least 3 bin edges"

/-- The spec taxonomy name for the error thrown by `validate_grid_size`:
a `pybind11::value_error` built at `xspec_models_cxc.hh:108-112`. -/
def GridSizeError (energySize modelSize : Nat) : XSError :=
  XSError.valueError
    ("Energy grid size must be 1 more than model: energies has "
      ++ toString energySize ++ " elements and model has "
      ++ toString modelSize ++ " elements")

/-- The spec taxonomy name for the `pybind11::value_error` thrown when a
buffer is not one-dimensional. -/
def DimensionalityError (msg : String) : XSError :=
  XSError.valueError msg

/-- The spec taxonomy name for the `std::runtime_error` thrown by `init`
when the HEADAS environment variable is missing
(`xspec_models_cxc.hh:37-38`). -/
def ConfigurationError : XSError :=
  XSError.runtimeError "The HEADAS environment variable is not set!"

/-- The spec taxonomy name for the `std::runtime_error` thrown by `init`
when `FNINIT` fails; `diag` is the captured stdout text
(`xspec_models_cxc.hh:55`). -/
def InitializationError (diag : String) : XSError :=
  XSError.runtimeError ("Unable to initialize XSPEC model library\n" ++ diag)

/-- The spec taxonomy name for the `pybind11::key_error` raised by the
string-keyed lookups. -/
def KeyNotFoundError (key : String) : XSError :=
  XSError.keyError key

/-- The spec taxonomy name for the `pybind11::index_error` raised by the
atomic-number-keyed abundance lookup and by `RealArray` indexing. -/
def IndexOutOfRangeError (msg : String) : XSError :=
  XSError.indexError msg

/-- Observable process state threaded through every call.
`ran` is the static flag of `init`; `coutBuf` identifies the buffer
currently installed on `std::cout` (restored = unchanged);
`cerrRedirects` counts scoped `std::cerr` captures; `fninitCalls`
counts invocations of the native `FNINIT`; `fninitSuccesses` counts the
ones that completed; `nativeOps` lists the native settings/model calls
performed, in order; `nextId` is the allocator for fresh numpy buffers. -/
structure XState where
  ran : Bool
  coutBuf : Nat
  cerrRedirects : Nat
  fninitCalls : Nat
  fninitSuccesses : Nat
  nativeOps : List String
  nextId : Nat
deriving DecidableEq, Repr

/-- Record one native call. -/
def pushOp (op : String) (s : XState) : XState :=
  { s with nativeOps := s.nativeOps ++ [op] }

/-- The opaque native library and process environment: everything the
adapter layer observes but does not implement.  `headas` is
`getenv("HEADAS")`; `fninitFails k` tells whether the `k`-th `FNINIT`
invocation throws, and `fninitDiag k` is what it printed to the captured
stdout; the remaining fields are the values returned by the
`FunctionUtility` settings store and by `tabint`. -/
structure World where
  headas : Option String
  fninitFails : Nat → Bool
  fninitDiag : Nat → String
  nelems : Nat
  chatterLevel : Int
  abund : String
  xsect : String
  h0 : ℚ
  q0 : ℚ
  lambda0 : ℚ
  version : String
  getAbundanceByName : String → ℚ
  abundanceNameDiag : String → String
  getAbundanceByZ : Nat → ℚ
  elements : Nat → String
  notAKey : String
  getModelStringVal : String → String
  modelStringAll : List (String × String)
  badval : ℚ
  getDbVal : String → ℚ
  getDbDiag : String → String
  dbAll : List (String × ℚ)
  xfltCount : Int → Int
  xfltAll : Int → List (String × ℚ)
  xfltByKey : Int → Int → ℚ
  xfltByName : Int → String → ℚ
  xfltInKey : Int → Int → Bool
  xfltInName : Int → String → Bool
  tabint : List ℚ → Nat → List ℚ → Nat → String → Int → String → Nat → ℚ

/-- Embedding of `xspec_models_cxc::init` (`xspec_models_cxc.hh:32-62`): the lazy,
idempotent initialization guard.  If the `ran` flag is set it returns
immediately.  Otherwise it requires `HEADAS`, swaps the stdout buffer
for a local one, runs `FNINIT`, restores the buffer on both exit paths,
and sets `ran` only on success. -/
def init (w : World) (s : XState) : XState × Except XSError Unit :=
  if s.ran then (s, Except.ok ())
  else if w.headas.isNone then (s, Except.error ConfigurationError)
  else
    let cout_buff := s.coutBuf
    let s1 : XState := { s with coutBuf := s.coutBuf + 1 }
    let k := s1.fninitCalls
    let s2 : XState := { s1 with fninitCalls := k + 1 }
    if w.fninitFails k then
      ({ s2 with coutBuf := cout_buff },
        Except.error (InitializationError (w.fninitDiag k)))
    else
      ({ s2 with coutBuf := cout_buff, ran := true, fninitSuccesses := s2.fninitSuccesses + 1 },
        Except.ok ())

/-- Iterate the initialization guard `n` times, keeping only the state. -/
def initN (w : World) : Nat → XState → XState
  | 0, s => s
  | n + 1, s => initN w n (init w s).1

/-- The condition under which the next `init` call succeeds: either the
guard has already run, or the environment is configured and the next
`FNINIT` attempt completes. -/
def initReady (w : World) (s : XState) : Prop :=
  s.ran = true ∨ (w.headas.isSome = true ∧ w.fninitFails s.fninitCalls = false)

instance (w : World) (s : XState) : Decidable (initReady w s) := by
  unfold initReady; infer_instance

/-- Embedding of `validate_par_size` (`xspec_models_cxc.hh:93-100`). -/
def validate_par_size (NumPars got : Nat) : Except XSError Unit :=
  if NumPars = got then Except.ok ()
  else Except.error (ParameterCountError NumPars got)

/-- Embedding of `validate_grid_size` (`xspec_models_cxc.hh:103-113`). -/
def validate_grid_size (energySize modelSize : Nat) : Except XSError Unit :=
  if energySize = modelSize + 1 then Except.ok ()
  else Except.error (GridSizeError energySize modelSize)

/-- A numpy buffer after `forcecast`: `ndim` from `buffer_info.ndim`,
`data` the flattened contents, and `id` the identity of the underlying
Python object (in-place wrappers return the very buffer they were
given; allocate wrappers return a fresh one). -/
structure NDArray where
  id : Nat
  ndim : Nat
  data : List ℚ
deriving DecidableEq, Repr

def NDArray.size (a : NDArray) : Nat := a.data.length

/-- Contents of a length-`n` output buffer after the native call wrote
cell `i` with `f i`. -/
def natWrite (n : Nat) (f : Nat → ℚ) : List ℚ :=
  (List.range n).map f

/-- A compiled-in model using the `xsccCall` (C-style double) convention:
its fixed parameter count and the deterministic native computation
(value of output cell `i` from grid, bin count, parameters, spectrum
number and init string; the output buffer is write-only for the native
routine). -/
structure CModel where
  numPars : Nat
  run : List ℚ → Nat → List ℚ → Int → String → Nat → ℚ

/-- A model using the `xsf77Call` (single-precision FORTRAN) or
`xsF77Call` (double-precision FORTRAN) convention: no init string. -/
structure FModel where
  numPars : Nat
  run : List ℚ → Nat → List ℚ → Int → Nat → ℚ

/-- A convolution model (`xsccCall` symbol whose native routine also
reads the incoming model buffer, passed here as an extra argument). -/
structure ConModel where
  numPars : Nat
  run : List ℚ → Nat → List ℚ → Int → List ℚ → String → Nat → ℚ

/-- A model using the `XSCCall` (C++ RealArray) convention. -/
structure CXXModel where
  numPars : Nat
  run : List ℚ → List ℚ → Int → String → Nat → ℚ

/-- Embedding of `wrapper_C` (`xspec_models_cxc.hh:142-174`): allocate-form adapter
for the C-style double convention. -/
def wrapper_C (M : CModel) (w : World)
    (pars energyArray : NDArray) (spectrumNumber : Int) (initStr : String)
    (s : XState) : XState × Except XSError NDArray :=
  if pars.ndim ≠ 1 ∨ energyArray.ndim ≠ 1 then
    (s, Except.error (DimensionalityError "pars and energyArray must be 1D"))
  else
    match validate_par_size M.numPars pars.size with
    | Except.error e => (s, Except.error e)
    | Except.ok _ =>
      if energyArray.size < 3 then (s, Except.error GridTooSmallError)
      else
        let nelem := energyArray.size - 1
        let resultId := s.nextId
        let s1 : XState := { s with nextId := s.nextId + 1 }
        match init w s1 with
        | (s2, Except.error e) => (s2, Except.error e)
        | (s2, Except.ok _) =>
          (pushOp "model_C" s2,
            Except.ok ⟨resultId, 1,
              natWrite nelem
                (M.run energyArray.data nelem pars.data spectrumNumber initStr)⟩)

/-- Embedding of `wrapper_inplace_C` (`xspec_models_cxc.hh:179-214`): in-place adapter
for the C-style double convention; returns the caller's buffer. -/
def wrapper_inplace_C (M : CModel) (w : World)
    (pars energyArray output : NDArray) (spectrumNumber : Int) (initStr : String)
    (s : XState) : XState × Except XSError NDArray :=
  if pars.ndim ≠ 1 ∨ energyArray.ndim ≠ 1 ∨ output.ndim ≠ 1 then
    (s, Except.error (DimensionalityError "pars, energyArray, and model must be 1D"))
  else
    match validate_par_size M.numPars pars.size with
    | Except.error e => (s, Except.error e)
    | Except.ok _ =>
      if energyArray.size < 3 then (s, Except.error GridTooSmallError)
      else
        match validate_grid_size energyArray.size output.size with
        | Except.error e => (s, Except.error e)
        | Except.ok _ =>
          let nelem := energyArray.size - 1
          match init w s with
          | (s2, Except.error e) => (s2, Except.error e)
          | (s2, Except.ok _) =>
            (pushOp "model_C" s2,
              Except.ok { output with
                data := natWrite nelem
                  (M.run energyArray.data nelem pars.data spectrumNumber initStr) })

/-- Embedding of `wrapper_f` (`xspec_models_cxc.hh:224-253`): allocate-form adapter
for the single-precision FORTRAN convention (no init string). -/
def wrapper_f (M : FModel) (w : World)
    (pars energyArray : NDArray) (spectrumNumber : Int)
    (s : XState) : XState × Except XSError NDArray :=
  if pars.ndim ≠ 1 ∨ energyArray.ndim ≠ 1 then
    (s, Except.error (DimensionalityError "pars and energyArray must be 1D"))
  else
    match validate_par_size M.numPars pars.size with
    | Except.error e => (s, Except.error e)
    | Except.ok _ =>
      if energyArray.size < 3 then (s, Except.error GridTooSmallError)
      else
        let nelem := energyArray.size - 1
        let resultId := s.nextId
        let s1 : XState := { s with nextId := s.nextId + 1 }
        match init w s1 with
        | (s2, Except.error e) => (s2, Except.error e)
        | (s2, Except.ok _) =>
          (pushOp "model_f77" s2,
            Except.ok ⟨resultId, 1,
              natWrite nelem
                (M.run energyArray.data nelem pars.data spectrumNumber)⟩)

/-- Embedding of `wrapper_inplace_f` (`xspec_models_cxc.hh:258-289`): in-place adapter
for the single-precision FORTRAN convention. -/
def wrapper_inplace_f (M : FModel) (w : World)
    (pars energyArray output : NDArray) (spectrumNumber : Int)
    (s : XState) : XState × Except XSError NDArray :=
  if pars.ndim ≠ 1 ∨ energyArray.ndim ≠ 1 ∨ output.ndim ≠ 1 then
    (s, Except.error (DimensionalityError "pars, energyArray, and model must be 1D"))
  else
    match validate_par_size M.numPars pars.size with
    | Except.error e => (s, Except.error e)
    | Except.ok _ =>
      if energyArray.size < 3 then (s, Except.error GridTooSmallError)
      else
        match validate_grid_size energyArray.size output.size with
        | Except.error e => (s, Except.error e)
        | Except.ok _ =>
          let nelem := energyArray.size - 1
          match init w s with
          | (s2, Except.error e) => (s2, Except.error e)
          | (s2, Except.ok _) =>
            (pushOp "model_f77" s2,
              Except.ok { output with
                data := natWrite nelem
                  (M.run energyArray.data nelem pars.data spectrumNumber) })

/-- Embedding of `wrapper_F` (`xspec_models_cxc.hh:295-324`): allocate-form adapter
for the double-precision FORTRAN convention. -/
def wrapper_F (M : FModel) (w : World)
    (pars energyArray : NDArray) (spectrumNumber : Int)
    (s : XState) : XState × Except XSError NDArray :=
  if pars.ndim ≠ 1 ∨ energyArray.ndim ≠ 1 then
    (s, Except.error (DimensionalityError "pars and energyArray must be 1D"))
  else
    match validate_par_size M.numPars pars.size with
    | Except.error e => (s, Except.error e)
    | Except.ok _ =>
      if energyArray.size < 3 then (s, Except.error GridTooSmallError)
      else
        let nelem := energyArray.size - 1
        let resultId := s.nextId
        let s1 : XState := { s with nextId := s.nextId + 1 }
        match init w s1 with
        | (s2, Except.error e) => (s2, Except.error e)
        | (s2, Except.ok _) =>
          (pushOp "model_F77" s2,
            Except.ok ⟨resultId, 1,
              natWrite nelem
                (M.run energyArray.data nelem pars.data spectrumNumber)⟩)

/-- Embedding of `wrapper_inplace_F` (`xspec_models_cxc.hh:329-360`): in-place adapter
for the double-precision FORTRAN convention. -/
def wrapper_inplace_F (M : FModel) (w : World)
    (pars energyArray output : NDArray) (spectrumNumber : Int)
    (s : XState) : XState × Except XSError NDArray :=
  if pars.ndim ≠ 1 ∨ energyArray.ndim ≠ 1 ∨ output.ndim ≠ 1 then
    (s, Except.error (DimensionalityError "pars, energyArray, and model must be 1D"))
  else
    match validate_par_size M.numPars pars.size with
    | Except.error e => (s, Except.error e)
    | Except.ok _ =>
      if energyArray.size < 3 then (s, Except.error GridTooSmallError)
      else
        match validate_grid_size energyArray.size output.size with
        | Except.error e => (s, Except.error e)
        | Except.ok _ =>
          let nelem := energyArray.size - 1
          match init w s with
          | (s2, Except.error e) => (s2, Except.error e)
          | (s2, Except.ok _) =>
            (pushOp "model_F77" s2,
              Except.ok { output with
                data := natWrite nelem
                  (M.run energyArray.data nelem pars.data spectrumNumber) })

/-- Embedding of `wrapper_con_C` (`xspec_models_cxc.hh:365-400`): convolution adapter
for the C-style double convention; the native call reads and mutates
`inModel`. -/
def wrapper_con_C (M : ConModel) (w : World)
    (pars energyArray inModel : NDArray) (spectrumNumber : Int) (initStr : String)
    (s : XState) : XState × Except XSError NDArray :=
  if pars.ndim ≠ 1 ∨ energyArray.ndim ≠ 1 ∨ inModel.ndim ≠ 1 then
    (s, Except.error (DimensionalityError "pars and energyArray must be 1D"))
  else
    match validate_par_size M.numPars pars.size with
    | Except.error e => (s, Except.error e)
    | Except.ok _ =>
      if energyArray.size < 3 then (s, Except.error GridTooSmallError)
      else
        match validate_grid_size energyArray.size inModel.size with
        | Except.error e => (s, Except.error e)
        | Except.ok _ =>
          let nelem := energyArray.size - 1
          match init w s with
          | (s2, Except.error e) => (s2, Except.error e)
          | (s2, Except.ok _) =>
            (pushOp "model_C" s2,
              Except.ok { inModel with
                data := natWrite nelem
                  (M.run energyArray.data nelem pars.data spectrumNumber
                    inModel.data initStr) })

/-- Embedding of `wrapper_con_f` (`xspec_models_cxc.hh:405-439`): convolution adapter
for the single-precision FORTRAN convention. -/
def wrapper_con_f (M : ConModel) (w : World)
    (pars energyArray inModel : NDArray) (spectrumNumber : Int)
    (s : XState) : XState × Except XSError NDArray :=
  if pars.ndim ≠ 1 ∨ energyArray.ndim ≠ 1 ∨ inModel.ndim ≠ 1 then
    (s, Except.error (DimensionalityError "pars and energyArray must be 1D"))
  else
    match validate_par_size M.numPars pars.size with
    | Except.error e => (s, Except.error e)
    | Except.ok _ =>
      if energyArray.size < 3 then (s, Except.error GridTooSmallError)
      else
        match validate_grid_size energyArray.size inModel.size with
        | Except.error e => (s, Except.error e)
        | Except.ok _ =>
          let nelem := energyArray.size - 1
          match init w s with
          | (s2, Except.error e) => (s2, Except.error e)
          | (s2, Except.ok _) =>
            (pushOp "model_f77" s2,
              Except.ok { inModel with
                data := natWrite nelem
                  (M.run energyArray.data nelem pars.data spectrumNumber
                    inModel.data "") })

/-- Embedding of `wrapper_inplace_CXX` (`xspec_models_cxc.hh:116-138`): in-place
adapter for the C++ RealArray convention (RealArray arguments are
one-dimensional by construction, so there is no rank check). -/
def wrapper_inplace_CXX (M : CXXModel) (w : World)
    (pars energyArray output : List ℚ) (spectrumNumber : Int) (initStr : String)
    (s : XState) : XState × Except XSError (List ℚ) :=
  match validate_par_size M.numPars pars.length with
  | Except.error e => (s, Except.error e)
  | Except.ok _ =>
    if energyArray.length < 3 then (s, Except.error GridTooSmallError)
    else
      match validate_grid_size energyArray.length output.length with
      | Except.error e => (s, Except.error e)
      | Except.ok _ =>
        match init w s with
        | (s2, Except.error e) => (s2, Except.error e)
        | (s2, Except.ok _) =>
          (pushOp "model_CXX" s2,
            Except.ok (natWrite output.length
              (M.run energyArray pars spectrumNumber initStr)))

/-- The allocate-form `tableModel` binding (`template/xspec.cxx:408-442`);
note it performs no parameter-count validation (the actual count is
passed to `tabint`). -/
def tableModel (w : World) (filename tableType : String)
    (pars energyArray : NDArray) (spectrumNumber : Int)
    (s : XState) : XState × Except XSError NDArray :=
  if pars.ndim ≠ 1 ∨ energyArray.ndim ≠ 1 then
    (s, Except.error (DimensionalityError "pars and energyArray must be 1D"))
  else if energyArray.size < 3 then (s, Except.error GridTooSmallError)
  else
    let nelem := energyArray.size - 1
    let resultId := s.nextId
    let s1 : XState := { s with nextId := s.nextId + 1 }
    match init w s1 with
    | (s2, Except.error e) => (s2, Except.error e)
    | (s2, Except.ok _) =>
      (pushOp "tabint" s2,
        Except.ok ⟨resultId, 1,
          natWrite nelem
            (w.tabint energyArray.data nelem pars.data pars.size filename
              spectrumNumber tableType)⟩)

/-- The in-place `tableModel` binding (`template/xspec.cxx:444-481`). -/
def tableModel_inplace (w : World) (filename tableType : String)
    (pars energyArray output : NDArray) (spectrumNumber : Int)
    (s : XState) : XState × Except XSError NDArray :=
  if pars.ndim ≠ 1 ∨ energyArray.ndim ≠ 1 ∨ output.ndim ≠ 1 then
    (s, Except.error (DimensionalityError "pars, energyArray, and model must be 1D"))
  else if energyArray.size < 3 then (s, Except.error GridTooSmallError)
  else
    match validate_grid_size energyArray.size output.size with
    | Except.error e => (s, Except.error e)
    | Except.ok _ =>
      let nelem := energyArray.size - 1
      match init w s with
      | (s2, Except.error e) => (s2, Except.error e)
      | (s2, Except.ok _) =>
        (pushOp "tabint" s2,
          Except.ok { output with
            data := natWrite nelem
              (w.tabint energyArray.data nelem pars.data pars.size filename
                spectrumNumber tableType) })

/-- Embedding of the `get_version` binding (`template/xspec.cxx:174-176`). -/
def get_version (w : World) (s : XState) : XState × Except XSError String :=
  match init w s with
  | (s1, Except.error e) => (s1, Except.error e)
  | (s1, Except.ok _) => (pushOp "XSutility::xs_version" s1, Except.ok w.version)

/-- Embedding of the `chatter()` binding (`template/xspec.cxx:189-191`). -/
def chatter_get (w : World) (s : XState) : XState × Except XSError Int :=
  match init w s with
  | (s1, Except.error e) => (s1, Except.error e)
  | (s1, Except.ok _) =>
    (pushOp "FunctionUtility::xwriteChatter" s1, Except.ok w.chatterLevel)

/-- Embedding of the `chatter(i)` binding (`template/xspec.cxx:193-196`). -/
def chatter_set (w : World) (i : Int) (s : XState) : XState × Except XSError Unit :=
  match init w s with
  | (s1, Except.error e) => (s1, Except.error e)
  | (s1, Except.ok _) =>
    (pushOp "FunctionUtility::xwriteChatter" s1, Except.ok ())

/-- Embedding of the `abundance()` binding (`template/xspec.cxx:200-203`). -/
def abundance_get (w : World) (s : XState) : XState × Except XSError String :=
  match init w s with
  | (s1, Except.error e) => (s1, Except.error e)
  | (s1, Except.ok _) => (pushOp "FunctionUtility::ABUND" s1, Except.ok w.abund)

/-- Embedding of the `abundance(table)` binding (`template/xspec.cxx:205-208`). -/
def abundance_set (w : World) (value : String) (s : XState) :
    XState × Except XSError Unit :=
  match init w s with
  | (s1, Except.error e) => (s1, Except.error e)
  | (s1, Except.ok _) => (pushOp "FunctionUtility::ABUND" s1, Except.ok ())

/-- Embedding of the `elementAbundance(name)` binding (`template/xspec.cxx:213-231`):
captures `std::cerr` around the native lookup and interprets any
captured text as "not a key". -/
def elementAbundance_name (w : World) (value : String) (s : XState) :
    XState × Except XSError ℚ :=
  match init w s with
  | (s1, Except.error e) => (s1, Except.error e)
  | (s1, Except.ok _) =>
    let s2 := { s1 with cerrRedirects := s1.cerrRedirects + 1 }
    let s3 := pushOp "FunctionUtility::getAbundance" s2
    if w.abundanceNameDiag value ≠ "" then
      (s3, Except.error (KeyNotFoundError value))
    else (s3, Except.ok (w.getAbundanceByName value))

/-- Embedding of the `elementAbundance(z)` binding (`template/xspec.cxx:233-245`):
validates `1 <= Z <= NELEMS()` up front and raises
`pybind11::index_error` showing `Z` outside that range. -/
def elementAbundance_Z (w : World) (Z : Nat) (s : XState) :
    XState × Except XSError ℚ :=
  match init w s with
  | (s1, Except.error e) => (s1, Except.error e)
  | (s1, Except.ok _) =>
    if Z < 1 ∨ Z > w.nelems then
      (s1, Except.error (IndexOutOfRangeError (toString Z)))
    else
      (pushOp "FunctionUtility::getAbundance" s1, Except.ok (w.getAbundanceByZ Z))

/-- Embedding of the `elementName(z)` binding (`template/xspec.cxx:247-251`): no range
validation at all; `Z - 1` is computed in `size_t` arithmetic (wrapping
at `2 ^ 64`) and handed straight to the native `elements` accessor. -/
def elementName (w : World) (Z : Nat) (s : XState) :
    XState × Except XSError String :=
  match init w s with
  | (s1, Except.error e) => (s1, Except.error e)
  | (s1, Except.ok _) =>
    (pushOp "FunctionUtility::elements" s1,
      Except.ok (w.elements ((Z + (2 ^ 64 - 1)) % 2 ^ 64)))

/-- The module-import assignment
`m.attr("numberElements") = FunctionUtility::NELEMS();`
(`template/xspec.cxx:256`): reads the native layer once at import time
without invoking the initialization guard. -/
def numberElements (w : World) (s : XState) : XState × Nat :=
  (pushOp "FunctionUtility::NELEMS" s, w.nelems)

/-- Embedding of the `cross_section()` binding (`template/xspec.cxx:260-263`). -/
def cross_section_get (w : World) (s : XState) : XState × Except XSError String :=
  match init w s with
  | (s1, Except.error e) => (s1, Except.error e)
  | (s1, Except.ok _) => (pushOp "FunctionUtility::XSECT" s1, Except.ok w.xsect)

/-- Embedding of the `cross_section(table)` binding (`template/xspec.cxx:265-268`). -/
def cross_section_set (w : World) (value : String) (s : XState) :
    XState × Except XSError Unit :=
  match init w s with
  | (s1, Except.error e) => (s1, Except.error e)
  | (s1, Except.ok _) => (pushOp "FunctionUtility::XSECT" s1, Except.ok ())

/-- Embedding of the `cosmology()` binding (`template/xspec.cxx:272-281`). -/
def cosmology_get (w : World) (s : XState) : XState × Except XSError (ℚ × ℚ × ℚ) :=
  match init w s with
  | (s1, Except.error e) => (s1, Except.error e)
  | (s1, Except.ok _) =>
    (pushOp "FunctionUtility::getlambda0"
        (pushOp "FunctionUtility::getq0" (pushOp "FunctionUtility::getH0" s1)),
      Except.ok (w.h0, w.q0, w.lambda0))

/-- Embedding of the `cosmology(h0, q0, lambda0)` binding (`template/xspec.cxx:283-291`). -/
def cosmology_set (w : World) (h0 q0 lambda0 : ℚ) (s : XState) :
    XState × Except XSError Unit :=
  match init w s with
  | (s1, Except.error e) => (s1, Except.error e)
  | (s1, Except.ok _) =>
    (pushOp "FunctionUtility::setlambda0"
        (pushOp "FunctionUtility::setq0" (pushOp "FunctionUtility::setH0" s1)),
      Except.ok ())

/-- Embedding of the `clearXFLT` binding (`template/xspec.cxx:297-299`). -/
def clearXFLT (w : World) (s : XState) : XState × Except XSError Unit :=
  match init w s with
  | (s1, Except.error e) => (s1, Except.error e)
  | (s1, Except.ok _) => (pushOp "FunctionUtility::clearXFLT" s1, Except.ok ())

/-- Embedding of the `getNumberXFLT` binding (`template/xspec.cxx:301-304`). -/
def getNumberXFLT (w : World) (ifl : Int) (s : XState) : XState × Except XSError Int :=
  match init w s with
  | (s1, Except.error e) => (s1, Except.error e)
  | (s1, Except.ok _) =>
    (pushOp "FunctionUtility::getNumberXFLT" s1, Except.ok (w.xfltCount ifl))

/-- Embedding of the `getXFLT(spectrum)` binding (`template/xspec.cxx:306-310`). -/
def getXFLT_all (w : World) (ifl : Int) (s : XState) :
    XState × Except XSError (List (String × ℚ)) :=
  match init w s with
  | (s1, Except.error e) => (s1, Except.error e)
  | (s1, Except.ok _) =>
    (pushOp "FunctionUtility::getAllXFLT" s1, Except.ok (w.xfltAll ifl))

/-- Embedding of the `getXFLT(spectrum, key)` binding (`template/xspec.cxx:312-315`). -/
def getXFLT_key (w : World) (ifl i : Int) (s : XState) : XState × Except XSError ℚ :=
  match init w s with
  | (s1, Except.error e) => (s1, Except.error e)
  | (s1, Except.ok _) =>
    (pushOp "FunctionUtility::getXFLT" s1, Except.ok (w.xfltByKey ifl i))

/-- Embedding of the `getXFLT(spectrum, name)` binding (`template/xspec.cxx:317-320`). -/
def getXFLT_name (w : World) (ifl : Int) (skey : String) (s : XState) :
    XState × Except XSError ℚ :=
  match init w s with
  | (s1, Except.error e) => (s1, Except.error e)
  | (s1, Except.ok _) =>
    (pushOp "FunctionUtility::getXFLT" s1, Except.ok (w.xfltByName ifl skey))

/-- Embedding of the `inXFLT(spectrum, key)` binding (`template/xspec.cxx:322-325`). -/
def inXFLT_key (w : World) (ifl i : Int) (s : XState) : XState × Except XSError Bool :=
  match init w s with
  | (s1, Except.error e) => (s1, Except.error e)
  | (s1, Except.ok _) =>
    (pushOp "FunctionUtility::inXFLT" s1, Except.ok (w.xfltInKey ifl i))

/-- Embedding of the `inXFLT(spectrum, name)` binding (`template/xspec.cxx:327-330`). -/
def inXFLT_name (w : World) (ifl : Int) (skey : String) (s : XState) :
    XState × Except XSError Bool :=
  match init w s with
  | (s1, Except.error e) => (s1, Except.error e)
  | (s1, Except.ok _) =>
    (pushOp "FunctionUtility::inXFLT" s1, Except.ok (w.xfltInName ifl skey))

/-- Embedding of the `setXFLT` binding (`template/xspec.cxx:332-335`). -/
def setXFLT (w : World) (ifl : Int) (values : List (String × ℚ)) (s : XState) :
    XState × Except XSError Unit :=
  match init w s with
  | (s1, Except.error e) => (s1, Except.error e)
  | (s1, Except.ok _) => (pushOp "FunctionUtility::loadXFLT" s1, Except.ok ())

/-- Embedding of the `clearModelString` binding (`template/xspec.cxx:341-343`). -/
def clearModelString (w : World) (s : XState) : XState × Except XSError Unit :=
  match init w s with
  | (s1, Except.error e) => (s1, Except.error e)
  | (s1, Except.ok _) =>
    (pushOp "FunctionUtility::eraseModelStringDataBase" s1, Except.ok ())

/-- Embedding of the `getModelString()` binding (`template/xspec.cxx:345-348`). -/
def getModelString_all (w : World) (s : XState) :
    XState × Except XSError (List (String × String)) :=
  match init w s with
  | (s1, Except.error e) => (s1, Except.error e)
  | (s1, Except.ok _) =>
    (pushOp "FunctionUtility::modelStringDataBase" s1, Except.ok w.modelStringAll)

/-- Embedding of the `getModelString(key)` binding (`template/xspec.cxx:350-359`):
the native lookup returns the reserved `NOT_A_KEY()` sentinel for a
missing key, which is translated to `pybind11::key_error`. -/
def getModelString_key (w : World) (key : String) (s : XState) :
    XState × Except XSError String :=
  match init w s with
  | (s1, Except.error e) => (s1, Except.error e)
  | (s1, Except.ok _) =>
    let s2 := pushOp "FunctionUtility::getModelString" s1
    if w.getModelStringVal key = w.notAKey then
      (s2, Except.error (KeyNotFoundError key))
    else (s2, Except.ok (w.getModelStringVal key))

/-- Embedding of the `setModelString` binding (`template/xspec.cxx:361-364`). -/
def setModelString (w : World) (key value : String) (s : XState) :
    XState × Except XSError Unit :=
  match init w s with
  | (s1, Except.error e) => (s1, Except.error e)
  | (s1, Except.ok _) =>
    (pushOp "FunctionUtility::setModelString" s1, Except.ok ())

/-- Embedding of the `clearDb` binding (`template/xspec.cxx:369-371`). -/
def clearDb (w : World) (s : XState) : XState × Except XSError Unit :=
  match init w s with
  | (s1, Except.error e) => (s1, Except.error e)
  | (s1, Except.ok _) => (pushOp "FunctionUtility::clearDb" s1, Except.ok ())

/-- Embedding of the `getDb()` binding (`template/xspec.cxx:373-376`). -/
def getDb_all (w : World) (s : XState) :
    XState × Except XSError (List (String × ℚ)) :=
  match init w s with
  | (s1, Except.error e) => (s1, Except.error e)
  | (s1, Except.ok _) =>
    (pushOp "FunctionUtility::getAllDbValues" s1, Except.ok w.dbAll)

/-- Embedding of the `getDb(keyword)` binding (`template/xspec.cxx:381-399`): captures
`std::cerr` around the native lookup and compares the result against
the `BADVAL` sentinel. -/
def getDb_key (w : World) (keyword : String) (s : XState) :
    XState × Except XSError ℚ :=
  match init w s with
  | (s1, Except.error e) => (s1, Except.error e)
  | (s1, Except.ok _) =>
    let s2 := { s1 with cerrRedirects := s1.cerrRedirects + 1 }
    let s3 := pushOp "FunctionUtility::getDbValue" s2
    if w.getDbVal keyword = w.badval then
      (s3, Except.error (KeyNotFoundError keyword))
    else (s3, Except.ok (w.getDbVal keyword))

/-- Embedding of the `setDb` binding (`template/xspec.cxx:401-404`). -/
def setDb (w : World) (keyword : String) (value : ℚ) (s : XState) :
    XState × Except XSError Unit :=
  match init w s with
  | (s1, Except.error e) => (s1, Except.error e)
  | (s1, Except.ok _) =>
    (pushOp "FunctionUtility::loadDbValue" s1, Except.ok ())

/-- Embedding of `RealArray.__getitem__` (`template/xspec.cxx:149-156`): negative
indices are shifted once by the length; out-of-range adjusted indices
raise `pybind11::index_error()` (empty message). -/
def RealArray_getitem (v : List ℚ) (i : Int) : Except XSError ℚ :=
  let n : Int := (v.length : Int)
  let j := if i < 0 then i + n else i
  if j < 0 ∨ j ≥ n then Except.error (IndexOutOfRangeError "")
  else Except.ok (v.getD j.toNat 0)

/-- Embedding of `RealArray.__setitem__` (`template/xspec.cxx:158-165`): same index
adjustment and bounds check as `__getitem__`; on success writes the
addressed cell. -/
def RealArray_setitem (v : List ℚ) (i : Int) (value : ℚ) :
    Except XSError (List ℚ) :=
  let n : Int := (v.length : Int)
  let j := if i < 0 then i + n else i
  if j < 0 ∨ j ≥ n then Except.error (IndexOutOfRangeError "")
  else Except.ok (v.set j.toNat value)

/-- The exported functions of the `_compiled` module
(`template/xspec.cxx`), each constructor carrying the Python-level
arguments of the corresponding binding. -/
inductive ExportedFn where
  | getVersionFn
  | chatterGetFn
  | chatterSetFn (i : Int)
  | abundanceGetFn
  | abundanceSetFn (value : String)
  | elementAbundanceNameFn (value : String)
  | elementAbundanceZFn (Z : Nat)
  | elementNameFn (Z : Nat)
  | crossSectionGetFn
  | crossSectionSetFn (value : String)
  | cosmologyGetFn
  | cosmologySetFn (h0 q0 lambda0 : ℚ)
  | clearXFLTFn
  | getNumberXFLTFn (ifl : Int)
  | getXFLTAllFn (ifl : Int)
  | getXFLTKeyFn (ifl i : Int)
  | getXFLTNameFn (ifl : Int) (skey : String)
  | inXFLTKeyFn (ifl i : Int)
  | inXFLTNameFn (ifl : Int) (skey : String)
  | setXFLTFn (ifl : Int) (values : List (String × ℚ))
  | clearModelStringFn
  | getModelStringAllFn
  | getModelStringKeyFn (key : String)
  | setModelStringFn (key value : String)
  | clearDbFn
  | getDbAllFn
  | getDbKeyFn (keyword : String)
  | setDbFn (keyword : String) (value : ℚ)
  | tableModelFn (filename tableType : String) (pars energyArray : NDArray)
      (spectrumNumber : Int)
  | tableModelInplaceFn (filename tableType : String)
      (pars energyArray output : NDArray) (spectrumNumber : Int)
  | wrapperCFn (M : CModel) (pars energyArray : NDArray)
      (spectrumNumber : Int) (initStr : String)
  | wrapperInplaceCFn (M : CModel) (pars energyArray output : NDArray)
      (spectrumNumber : Int) (initStr : String)
  | wrapperFFn (M : FModel) (pars energyArray : NDArray) (spectrumNumber : Int)
  | wrapperInplaceFFn (M : FModel) (pars energyArray output : NDArray)
      (spectrumNumber : Int)
  | wrapperFloatFn (M : FModel) (pars energyArray : NDArray) (spectrumNumber : Int)
  | wrapperInplaceFloatFn (M : FModel) (pars energyArray output : NDArray)
      (spectrumNumber : Int)
  | wrapperConCFn (M : ConModel) (pars energyArray inModel : NDArray)
      (spectrumNumber : Int) (initStr : String)
  | wrapperConFloatFn (M : ConModel) (pars energyArray inModel : NDArray)
      (spectrumNumber : Int)
  | wrapperInplaceCXXFn (M : CXXModel) (pars energyArray output : List ℚ)
      (spectrumNumber : Int) (initStr : String)

/-- The process state after invoking one exported function (the returned
value, if any, is discarded; only the observable state is kept). -/
def touched (f : ExportedFn) (w : World) (s : XState) : XState :=
  match f with
  | ExportedFn.getVersionFn => (get_version w s).1
  | ExportedFn.chatterGetFn => (chatter_get w s).1
  | ExportedFn.chatterSetFn i => (chatter_set w i s).1
  | ExportedFn.abundanceGetFn => (abundance_get w s).1
  | ExportedFn.abundanceSetFn v => (abundance_set w v s).1
  | ExportedFn.elementAbundanceNameFn v => (elementAbundance_name w v s).1
  | ExportedFn.elementAbundanceZFn Z => (elementAbundance_Z w Z s).1
  | ExportedFn.elementNameFn Z => (elementName w Z s).1
  | ExportedFn.crossSectionGetFn => (cross_section_get w s).1
  | ExportedFn.crossSectionSetFn v => (cross_section_set w v s).1
  | ExportedFn.cosmologyGetFn => (cosmology_get w s).1
  | ExportedFn.cosmologySetFn h0 q0 l0 => (cosmology_set w h0 q0 l0 s).1
  | ExportedFn.clearXFLTFn => (clearXFLT w s).1
  | ExportedFn.getNumberXFLTFn ifl => (getNumberXFLT w ifl s).1
  | ExportedFn.getXFLTAllFn ifl => (getXFLT_all w ifl s).1
  | ExportedFn.getXFLTKeyFn ifl i => (getXFLT_key w ifl i s).1
  | ExportedFn.getXFLTNameFn ifl skey => (getXFLT_name w ifl skey s).1
  | ExportedFn.inXFLTKeyFn ifl i => (inXFLT_key w ifl i s).1
  | ExportedFn.inXFLTNameFn ifl skey => (inXFLT_name w ifl skey s).1
  | ExportedFn.setXFLTFn ifl values => (setXFLT w ifl values s).1
  | ExportedFn.clearModelStringFn => (clearModelString w s).1
  | ExportedFn.getModelStringAllFn => (getModelString_all w s).1
  | ExportedFn.getModelStringKeyFn key => (getModelString_key w key s).1
  | ExportedFn.setModelStringFn key value => (setModelString w key value s).1
  | ExportedFn.clearDbFn => (clearDb w s).1
  | ExportedFn.getDbAllFn => (getDb_all w s).1
  | ExportedFn.getDbKeyFn keyword => (getDb_key w keyword s).1
  | ExportedFn.setDbFn keyword value => (setDb w keyword value s).1
  | ExportedFn.tableModelFn fn tt p e n => (tableModel w fn tt p e n s).1
  | ExportedFn.tableModelInplaceFn fn tt p e o n =>
      (tableModel_inplace w fn tt p e o n s).1
  | ExportedFn.wrapperCFn M p e n i => (wrapper_C M w p e n i s).1
  | ExportedFn.wrapperInplaceCFn M p e o n i => (wrapper_inplace_C M w p e o n i s).1
  | ExportedFn.wrapperFFn M p e n => (wrapper_F M w p e n s).1
  | ExportedFn.wrapperInplaceFFn M p e o n => (wrapper_inplace_F M w p e o n s).1
  | ExportedFn.wrapperFloatFn M p e n => (wrapper_f M w p e n s).1
  | ExportedFn.wrapperInplaceFloatFn M p e o n => (wrapper_inplace_f M w p e o n s).1
  | ExportedFn.wrapperConCFn M p e m n i => (wrapper_con_C M w p e m n i s).1
  | ExportedFn.wrapperConFloatFn M p e m n => (wrapper_con_f M w p e m n s).1
  | ExportedFn.wrapperInplaceCXXFn M p e o n i =>
      (wrapper_inplace_CXX M w p e o n i s).1

/-- A concrete native environment for evaluating the embedding:
`HEADAS` set, `FNINIT` always succeeds, 30 known elements, constant
settings-store responses. -/
def W0 : World where
  headas := some "/opt/headas"
  fninitFails := fun _ => false
  fninitDiag := fun _ => ""
  nelems := 30
  chatterLevel := 10
  abund := "angr"
  xsect := "bcmc"
  h0 := 70
  q0 := 0
  lambda0 := (73 : ℚ) / 100
  version := "12.12.1"
  getAbundanceByName := fun _ => 1
  abundanceNameDiag := fun v => if v = "XX" then " Invalid element: XX\n" else ""
  getAbundanceByZ := fun _ => 1
  elements := fun _ => "H"
  notAKey := "$$NOT$$"
  getModelStringVal := fun _ => "$$NOT$$"
  modelStringAll := []
  badval := -987654321
  getDbVal := fun _ => -987654321
  getDbDiag := fun _ => ""
  dbAll := []
  xfltCount := fun _ => 0
  xfltAll := fun _ => []
  xfltByKey := fun _ _ => 0
  xfltByName := fun _ _ => 0
  xfltInKey := fun _ _ => false
  xfltInName := fun _ _ => false
  tabint := fun _ _ _ _ _ _ _ _ => 0

/-- The process state at interpreter start: guard not run, original
stdout buffer, nothing allocated, no native calls yet. -/
def S0 : XState where
  ran := false
  coutBuf := 0
  cerrRedirects := 0
  fninitCalls := 0
  fninitSuccesses := 0
  nativeOps := []
  nextId := 0

/-- The `xspec_models_cxc::init(); <rest>` sequencing every binding
uses: run the guard, propagate its failure, otherwise continue. -/
def afterInit {α : Type} (w : World) (k : XState → XState × Except XSError α)
    (s : XState) : XState × Except XSError α :=
  match init w s with
  | (s1, Except.error e) => (s1, Except.error e)
  | (s1, Except.ok _) => k s1

/-- Inductive invariant for the at-most-once property of the guard:
`ran` is only ever set by a successful `FNINIT`, and before that no
success has been counted. -/
def InitInv (s : XState) : Prop :=
  s.fninitSuccesses ≤ 1 ∧ (s.ran = false → s.fninitSuccesses = 0)

/-- Variant of `W0` with the required environment variable removed. -/
def WnoHead : World := { W0 with headas := none }

/-- Variant of `W0` with a native setup that always throws after printing a
diagnostic to the captured stdout. -/
def WFail : World :=
  { W0 with fninitFails := fun _ => true, fninitDiag := fun _ => "FNINIT diagnostic output" }

/-! ### Test fixtures (concrete models and buffers for witnesses) -/

def Mc3 : CModel := ⟨3, fun _ _ _ _ _ _ => 0⟩

def Mf3 : FModel := ⟨3, fun _ _ _ _ _ => 0⟩

def Mcon3 : ConModel := ⟨3, fun _ _ _ _ _ _ _ => 0⟩

def Mcxx3 : CXXModel := ⟨3, fun _ _ _ _ _ => 0⟩

def parArr2 : NDArray := ⟨100, 1, [1, 2]⟩

def parArr3 : NDArray := ⟨103, 1, [1, 1, 0]⟩

def egrid4 : NDArray := ⟨101, 1, [1, 2, 3, 4]⟩

def outArr3 : NDArray := ⟨102, 1, [0, 0, 0]⟩

def egrid2 : NDArray := ⟨104, 1, [1, 2]⟩

def egrid3 : NDArray := ⟨105, 1, [1, 2, 3]⟩

def outArr1 : NDArray := ⟨106, 1, [0]⟩

/-! ### Helper lemmas about the initialization guard -/

theorem init_coutBuf (w : World) (s : XState) :
    ((init w s).1).coutBuf = s.coutBuf := by
  unfold init
  by_cases h : s.ran
  · simp [h]
  · by_cases h2 : w.headas.isNone
    · simp [h, h2]
    · by_cases h3 : w.fninitFails s.fninitCalls
      · simp [h, h2, h3]
      · simp [h, h2, h3]

theorem init_of_ran (w : World) (s : XState) (h : s.ran = true) :
    init w s = (s, Except.ok ()) := by
  unfold init
  simp [h]

theorem init_nativeOps (w : World) (s : XState) :
    ((init w s).1).nativeOps = s.nativeOps := by
  unfold init
  by_cases h : s.ran
  · simp [h]
  · by_cases h2 : w.headas.isNone
    · simp [h, h2]
    · by_cases h3 : w.fninitFails s.fninitCalls
      · simp [h, h2, h3]
      · simp [h, h2, h3]

theorem init_cerrRedirects (w : World) (s : XState) :
    ((init w s).1).cerrRedirects = s.cerrRedirects := by
  unfold init
  by_cases h : s.ran
  · simp [h]
  · by_cases h2 : w.headas.isNone
    · simp [h, h2]
    · by_cases h3 : w.fninitFails s.fninitCalls
      · simp [h, h2, h3]
      · simp [h, h2, h3]

theorem init_nextId (w : World) (s : XState) :
    ((init w s).1).nextId = s.nextId := by
  unfold init
  by_cases h : s.ran
  · simp [h]
  · by_cases h2 : w.headas.isNone
    · simp [h, h2]
    · by_cases h3 : w.fninitFails s.fninitCalls
      · simp [h, h2, h3]
      · simp [h, h2, h3]

theorem init_ok_ran (w : World) (s s' : XState) (u : Unit)
    (h : init w s = (s', Except.ok u)) : s'.ran = true := by
  unfold init at h
  by_cases h1 : s.ran
  · simp [h1] at h
    rw [← h]
    exact h1
  · by_cases h2 : w.headas.isNone
    · simp [h1, h2] at h
    · by_cases h3 : w.fninitFails s.fninitCalls
      · simp [h1, h2, h3] at h
      · simp [h1, h2, h3] at h
        rw [← h]

/-- On success the guard leaves every observable except the `ran` flag
and the `FNINIT` counters unchanged. -/
theorem init_ready (w : World) (s : XState) (h : initReady w s) :
    ∃ s', init w s = (s', Except.ok ())
      ∧ s'.ran = true
      ∧ s'.nativeOps = s.nativeOps
      ∧ s'.coutBuf = s.coutBuf
      ∧ s'.cerrRedirects = s.cerrRedirects
      ∧ s'.nextId = s.nextId := by
  unfold init
  by_cases h1 : s.ran
  · exact ⟨s, by simp [h1], h1, rfl, rfl, rfl, rfl⟩
  · rcases h with h | ⟨hsome, hfail⟩
    · exact absurd h h1
    · have h2 : w.headas.isNone = false := by
        cases hh : w.headas with
        | none => rw [hh] at hsome; simp at hsome
        | some v => simp [hh]
      refine ⟨{ s with ran := true, fninitCalls := s.fninitCalls + 1, fninitSuccesses := s.fninitSuccesses + 1 }, ?_, rfl, rfl, rfl, rfl, rfl⟩
      simp [h1, h2, hfail]

theorem get_version_eq (w : World) (s : XState) :
    get_version w s = afterInit w
      (fun s1 => (pushOp "XSutility::xs_version" s1, Except.ok w.version)) s := rfl

theorem chatter_get_eq (w : World) (s : XState) :
    chatter_get w s = afterInit w
      (fun s1 => (pushOp "FunctionUtility::xwriteChatter" s1, Except.ok w.chatterLevel)) s := rfl

theorem chatter_set_eq (w : World) (i : Int) (s : XState) :
    chatter_set w i s = afterInit w
      (fun s1 => (pushOp "FunctionUtility::xwriteChatter" s1, Except.ok ())) s := rfl

theorem abundance_get_eq (w : World) (s : XState) :
    abundance_get w s = afterInit w
      (fun s1 => (pushOp "FunctionUtility::ABUND" s1, Except.ok w.abund)) s := rfl

theorem abundance_set_eq (w : World) (v : String) (s : XState) :
    abundance_set w v s = afterInit w
      (fun s1 => (pushOp "FunctionUtility::ABUND" s1, Except.ok ())) s := rfl

theorem elementAbundance_name_eq (w : World) (v : String) (s : XState) :
    elementAbundance_name w v s = afterInit w
      (fun s1 =>
      if w.abundanceNameDiag v ≠ "" then
        (pushOp "FunctionUtility::getAbundance" { s1 with cerrRedirects := s1.cerrRedirects + 1 }, Except.error (KeyNotFoundError v))
      else
        (pushOp "FunctionUtility::getAbundance" { s1 with cerrRedirects := s1.cerrRedirects + 1 }, Except.ok (w.getAbundanceByName v))) s := rfl

theorem elementAbundance_Z_eq (w : World) (Z : Nat) (s : XState) :
    elementAbundance_Z w Z s = afterInit w
      (fun s1 =>
      if Z < 1 ∨ Z > w.nelems then (s1, Except.error (IndexOutOfRangeError (toString Z)))
      else (pushOp "FunctionUtility::getAbundance" s1, Except.ok (w.getAbundanceByZ Z))) s := rfl

theorem elementName_eq (w : World) (Z : Nat) (s : XState) :
    elementName w Z s = afterInit w
      (fun s1 => (pushOp "FunctionUtility::elements" s1, Except.ok (w.elements ((Z + (2 ^ 64 - 1)) % 2 ^ 64)))) s := rfl

theorem cross_section_get_eq (w : World) (s : XState) :
    cross_section_get w s = afterInit w
      (fun s1 => (pushOp "FunctionUtility::XSECT" s1, Except.ok w.xsect)) s := rfl

theorem cross_section_set_eq (w : World) (v : String) (s : XState) :
    cross_section_set w v s = afterInit w
      (fun s1 => (pushOp "FunctionUtility::XSECT" s1, Except.ok ())) s := rfl

theorem cosmology_get_eq (w : World) (s : XState) :
    cosmology_get w s = afterInit w
      (fun s1 => (pushOp "FunctionUtility::getlambda0" (pushOp "FunctionUtility::getq0" (pushOp "FunctionUtility::getH0" s1)), Except.ok (w.h0, w.q0, w.lambda0))) s := rfl

theorem cosmology_set_eq (w : World) (h0 q0 lambda0 : ℚ) (s : XState) :
    cosmology_set w h0 q0 lambda0 s = afterInit w
      (fun s1 => (pushOp "FunctionUtility::setlambda0" (pushOp "FunctionUtility::setq0" (pushOp "FunctionUtility::setH0" s1)), Except.ok ())) s := rfl

theorem clearXFLT_eq (w : World) (s : XState) :
    clearXFLT w s = afterInit w
      (fun s1 => (pushOp "FunctionUtility::clearXFLT" s1, Except.ok ())) s := rfl

theorem getNumberXFLT_eq (w : World) (ifl : Int) (s : XState) :
    getNumberXFLT w ifl s = afterInit w
      (fun s1 => (pushOp "FunctionUtility::getNumberXFLT" s1, Except.ok (w.xfltCount ifl))) s := rfl

theorem getXFLT_all_eq (w : World) (ifl : Int) (s : XState) :
    getXFLT_all w ifl s = afterInit w
      (fun s1 => (pushOp "FunctionUtility::getAllXFLT" s1, Except.ok (w.xfltAll ifl))) s := rfl

theorem getXFLT_key_eq (w : World) (ifl i : Int) (s : XState) :
    getXFLT_key w ifl i s = afterInit w
      (fun s1 => (pushOp "FunctionUtility::getXFLT" s1, Except.ok (w.xfltByKey ifl i))) s := rfl

theorem getXFLT_name_eq (w : World) (ifl : Int) (skey : String) (s : XState) :
    getXFLT_name w ifl skey s = afterInit w
      (fun s1 => (pushOp "FunctionUtility::getXFLT" s1, Except.ok (w.xfltByName ifl skey))) s := rfl

theorem inXFLT_key_eq (w : World) (ifl i : Int) (s : XState) :
    inXFLT_key w ifl i s = afterInit w
      (fun s1 => (pushOp "FunctionUtility::inXFLT" s1, Except.ok (w.xfltInKey ifl i))) s := rfl

theorem inXFLT_name_eq (w : World) (ifl : Int) (skey : String) (s : XState) :
    inXFLT_name w ifl skey s = afterInit w
      (fun s1 => (pushOp "FunctionUtility::inXFLT" s1, Except.ok (w.xfltInName ifl skey))) s := rfl

theorem setXFLT_eq (w : World) (ifl : Int) (values : List (String × ℚ)) (s : XState) :
    setXFLT w ifl values s = afterInit w
      (fun s1 => (pushOp "FunctionUtility::loadXFLT" s1, Except.ok ())) s := rfl

theorem clearModelString_eq (w : World) (s : XState) :
    clearModelString w s = afterInit w
      (fun s1 => (pushOp "FunctionUtility::eraseModelStringDataBase" s1, Except.ok ())) s := rfl

theorem getModelString_all_eq (w : World) (s : XState) :
    getModelString_all w s = afterInit w
      (fun s1 => (pushOp "FunctionUtility::modelStringDataBase" s1, Except.ok w.modelStringAll)) s := rfl

theorem getModelString_key_eq (w : World) (key : String) (s : XState) :
    getModelString_key w key s = afterInit w
      (fun s1 =>
      if w.getModelStringVal key = w.notAKey then
        (pushOp "FunctionUtility::getModelString" s1, Except.error (KeyNotFoundError key))
      else (pushOp "FunctionUtility::getModelString" s1, Except.ok (w.getModelStringVal key))) s := rfl

theorem setModelString_eq (w : World) (key value : String) (s : XState) :
    setModelString w key value s = afterInit w
      (fun s1 => (pushOp "FunctionUtility::setModelString" s1, Except.ok ())) s := rfl

theorem clearDb_eq (w : World) (s : XState) :
    clearDb w s = afterInit w
      (fun s1 => (pushOp "FunctionUtility::clearDb" s1, Except.ok ())) s := rfl

theorem getDb_all_eq (w : World) (s : XState) :
    getDb_all w s = afterInit w
      (fun s1 => (pushOp "FunctionUtility::getAllDbValues" s1, Except.ok w.dbAll)) s := rfl

theorem getDb_key_eq (w : World) (keyword : String) (s : XState) :
    getDb_key w keyword s = afterInit w
      (fun s1 =>
      if w.getDbVal keyword = w.badval then
        (pushOp "FunctionUtility::getDbValue" { s1 with cerrRedirects := s1.cerrRedirects + 1 }, Except.error (KeyNotFoundError keyword))
      else (pushOp "FunctionUtility::getDbValue" { s1 with cerrRedirects := s1.cerrRedirects + 1 }, Except.ok (w.getDbVal keyword))) s := rfl

theorem setDb_eq (w : World) (keyword : String) (value : ℚ) (s : XState) :
    setDb w keyword value s = afterInit w
      (fun s1 => (pushOp "FunctionUtility::loadDbValue" s1, Except.ok ())) s := rfl

theorem afterInit_ran {α : Type} (w : World) (s : XState)
    (k : XState → XState × Except XSError α)
    (hk : ∀ t, t.ran = true → ((k t).1).ran = true)
    (h : ((afterInit w k s).1).nativeOps ≠ s.nativeOps) :
    ((afterInit w k s).1).ran = true := by
  unfold afterInit at h ⊢
  rcases hi : init w s with ⟨s1, r⟩
  rw [hi] at h
  cases r with
  | error e =>
    exfalso
    apply h
    have hno := init_nativeOps w s
    rw [hi] at hno
    exact hno
  | ok u => exact hk s1 (init_ok_ran w s s1 u hi)

theorem wrapper_C_guard (M : CModel) (w : World) (p e : NDArray) (n : Int) (i : String) (s : XState)
    (h : ((wrapper_C M w p e n i s).1).nativeOps ≠ s.nativeOps) :
    ((wrapper_C M w p e n i s).1).ran = true := by
  unfold wrapper_C validate_par_size at h ⊢
  by_cases h1 : p.ndim ≠ 1 ∨ e.ndim ≠ 1
  · simp [h1] at h
  · by_cases h2 : M.numPars = p.size
    · by_cases h3 : e.size < 3
      · simp [h1, h2, h3] at h
      · simp [h1, h2, h3] at h ⊢
        rcases hi : init w { s with nextId := s.nextId + 1 } with ⟨s2, r⟩
        rw [hi] at h
        cases r with
        | error e2 =>
          exfalso
          apply h
          have hno := init_nativeOps w { s with nextId := s.nextId + 1 }
          rw [hi] at hno
          exact hno
        | ok u => exact init_ok_ran w _ s2 u hi
    · simp [h1, h2] at h

theorem wrapper_f_guard (M : FModel) (w : World) (p e : NDArray) (n : Int) (s : XState)
    (h : ((wrapper_f M w p e n s).1).nativeOps ≠ s.nativeOps) :
    ((wrapper_f M w p e n s).1).ran = true := by
  unfold wrapper_f validate_par_size at h ⊢
  by_cases h1 : p.ndim ≠ 1 ∨ e.ndim ≠ 1
  · simp [h1] at h
  · by_cases h2 : M.numPars = p.size
    · by_cases h3 : e.size < 3
      · simp [h1, h2, h3] at h
      · simp [h1, h2, h3] at h ⊢
        rcases hi : init w { s with nextId := s.nextId + 1 } with ⟨s2, r⟩
        rw [hi] at h
        cases r with
        | error e2 =>
          exfalso
          apply h
          have hno := init_nativeOps w { s with nextId := s.nextId + 1 }
          rw [hi] at hno
          exact hno
        | ok u => exact init_ok_ran w _ s2 u hi
    · simp [h1, h2] at h

theorem wrapper_F_guard (M : FModel) (w : World) (p e : NDArray) (n : Int) (s : XState)
    (h : ((wrapper_F M w p e n s).1).nativeOps ≠ s.nativeOps) :
    ((wrapper_F M w p e n s).1).ran = true := by
  unfold wrapper_F validate_par_size at h ⊢
  by_cases h1 : p.ndim ≠ 1 ∨ e.ndim ≠ 1
  · simp [h1] at h
  · by_cases h2 : M.numPars = p.size
    · by_cases h3 : e.size < 3
      · simp [h1, h2, h3] at h
      · simp [h1, h2, h3] at h ⊢
        rcases hi : init w { s with nextId := s.nextId + 1 } with ⟨s2, r⟩
        rw [hi] at h
        cases r with
        | error e2 =>
          exfalso
          apply h
          have hno := init_nativeOps w { s with nextId := s.nextId + 1 }
          rw [hi] at hno
          exact hno
        | ok u => exact init_ok_ran w _ s2 u hi
    · simp [h1, h2] at h

theorem wrapper_inplace_C_guard (M : CModel) (w : World) (p e o : NDArray) (n : Int) (i : String) (s : XState)
    (h : ((wrapper_inplace_C M w p e o n i s).1).nativeOps ≠ s.nativeOps) :
    ((wrapper_inplace_C M w p e o n i s).1).ran = true := by
  unfold wrapper_inplace_C validate_par_size validate_grid_size at h ⊢
  by_cases h1 : p.ndim ≠ 1 ∨ e.ndim ≠ 1 ∨ o.ndim ≠ 1
  · simp [h1] at h
  · by_cases h2 : M.numPars = p.size
    · by_cases h3 : e.size < 3
      · simp [h1, h2, h3] at h
      · by_cases h4 : e.size = o.size + 1
        · have hge : ¬ (o.size + 1 < 3) := by omega
          simp [h1, h2, h3, hge, h4] at h ⊢
          rcases hi : init w s with ⟨s2, r⟩
          rw [hi] at h
          cases r with
          | error e2 =>
            exfalso
            apply h
            have hno := init_nativeOps w s
            rw [hi] at hno
            exact hno
          | ok u => exact init_ok_ran w _ s2 u hi
        · simp [h1, h2, h3, h4] at h
    · simp [h1, h2] at h

theorem wrapper_inplace_f_guard (M : FModel) (w : World) (p e o : NDArray) (n : Int) (s : XState)
    (h : ((wrapper_inplace_f M w p e o n s).1).nativeOps ≠ s.nativeOps) :
    ((wrapper_inplace_f M w p e o n s).1).ran = true := by
  unfold wrapper_inplace_f validate_par_size validate_grid_size at h ⊢
  by_cases h1 : p.ndim ≠ 1 ∨ e.ndim ≠ 1 ∨ o.ndim ≠ 1
  · simp [h1] at h
  · by_cases h2 : M.numPars = p.size
    · by_cases h3 : e.size < 3
      · simp [h1, h2, h3] at h
      · by_cases h4 : e.size = o.size + 1
        · have hge : ¬ (o.size + 1 < 3) := by omega
          simp [h1, h2, h3, hge, h4] at h ⊢
          rcases hi : init w s with ⟨s2, r⟩
          rw [hi] at h
          cases r with
          | error e2 =>
            exfalso
            apply h
            have hno := init_nativeOps w s
            rw [hi] at hno
            exact hno
          | ok u => exact init_ok_ran w _ s2 u hi
        · simp [h1, h2, h3, h4] at h
    · simp [h1, h2] at h

theorem wrapper_inplace_F_guard (M : FModel) (w : World) (p e o : NDArray) (n : Int) (s : XState)
    (h : ((wrapper_inplace_F M w p e o n s).1).nativeOps ≠ s.nativeOps) :
    ((wrapper_inplace_F M w p e o n s).1).ran = true := by
  unfold wrapper_inplace_F validate_par_size validate_grid_size at h ⊢
  by_cases h1 : p.ndim ≠ 1 ∨ e.ndim ≠ 1 ∨ o.ndim ≠ 1
  · simp [h1] at h
  · by_cases h2 : M.numPars = p.size
    · by_cases h3 : e.size < 3
      · simp [h1, h2, h3] at h
      · by_cases h4 : e.size = o.size + 1
        · have hge : ¬ (o.size + 1 < 3) := by omega
          simp [h1, h2, h3, hge, h4] at h ⊢
          rcases hi : init w s with ⟨s2, r⟩
          rw [hi] at h
          cases r with
          | error e2 =>
            exfalso
            apply h
            have hno := init_nativeOps w s
            rw [hi] at hno
            exact hno
          | ok u => exact init_ok_ran w _ s2 u hi
        · simp [h1, h2, h3, h4] at h
    · simp [h1, h2] at h

theorem wrapper_con_C_guard (M : ConModel) (w : World) (p e o : NDArray) (n : Int) (i : String) (s : XState)
    (h : ((wrapper_con_C M w p e o n i s).1).nativeOps ≠ s.nativeOps) :
    ((wrapper_con_C M w p e o n i s).1).ran = true := by
  unfold wrapper_con_C validate_par_size validate_grid_size at h ⊢
  by_cases h1 : p.ndim ≠ 1 ∨ e.ndim ≠ 1 ∨ o.ndim ≠ 1
  · simp [h1] at h
  · by_cases h2 : M.numPars = p.size
    · by_cases h3 : e.size < 3
      · simp [h1, h2, h3] at h
      · by_cases h4 : e.size = o.size + 1
        · have hge : ¬ (o.size + 1 < 3) := by omega
          simp [h1, h2, h3, hge, h4] at h ⊢
          rcases hi : init w s with ⟨s2, r⟩
          rw [hi] at h
          cases r with
          | error e2 =>
            exfalso
            apply h
            have hno := init_nativeOps w s
            rw [hi] at hno
            exact hno
          | ok u => exact init_ok_ran w _ s2 u hi
        · simp [h1, h2, h3, h4] at h
    · simp [h1, h2] at h

theorem wrapper_con_f_guard (M : ConModel) (w : World) (p e o : NDArray) (n : Int) (s : XState)
    (h : ((wrapper_con_f M w p e o n s).1).nativeOps ≠ s.nativeOps) :
    ((wrapper_con_f M w p e o n s).1).ran = true := by
  unfold wrapper_con_f validate_par_size validate_grid_size at h ⊢
  by_cases h1 : p.ndim ≠ 1 ∨ e.ndim ≠ 1 ∨ o.ndim ≠ 1
  · simp [h1] at h
  · by_cases h2 : M.numPars = p.size
    · by_cases h3 : e.size < 3
      · simp [h1, h2, h3] at h
      · by_cases h4 : e.size = o.size + 1
        · have hge : ¬ (o.size + 1 < 3) := by omega
          simp [h1, h2, h3, hge, h4] at h ⊢
          rcases hi : init w s with ⟨s2, r⟩
          rw [hi] at h
          cases r with
          | error e2 =>
            exfalso
            apply h
            have hno := init_nativeOps w s
            rw [hi] at hno
            exact hno
          | ok u => exact init_ok_ran w _ s2 u hi
        · simp [h1, h2, h3, h4] at h
    · simp [h1, h2] at h

theorem wrapper_inplace_CXX_guard (M : CXXModel) (w : World) (p e o : List ℚ) (n : Int) (i : String) (s : XState)
    (h : ((wrapper_inplace_CXX M w p e o n i s).1).nativeOps ≠ s.nativeOps) :
    ((wrapper_inplace_CXX M w p e o n i s).1).ran = true := by
  unfold wrapper_inplace_CXX validate_par_size validate_grid_size at h ⊢
  by_cases h2 : M.numPars = p.length
  · by_cases h3 : e.length < 3
    · simp [h2, h3] at h
    · by_cases h4 : e.length = o.length + 1
      · have hge : ¬ (o.length + 1 < 3) := by omega
        simp [h2, h3, hge, h4] at h ⊢
        rcases hi : init w s with ⟨s2, r⟩
        rw [hi] at h
        cases r with
        | error e2 =>
          exfalso
          apply h
          have hno := init_nativeOps w s
          rw [hi] at hno
          exact hno
        | ok u => exact init_ok_ran w _ s2 u hi
      · simp [h2, h3, h4] at h
  · simp [h2] at h

theorem tableModel_guard (w : World) (fn tt : String) (p e : NDArray) (n : Int) (s : XState)
    (h : ((tableModel w fn tt p e n s).1).nativeOps ≠ s.nativeOps) :
    ((tableModel w fn tt p e n s).1).ran = true := by
  unfold tableModel at h ⊢
  by_cases h1 : p.ndim ≠ 1 ∨ e.ndim ≠ 1
  · simp [h1] at h
  · by_cases h3 : e.size < 3
    · simp [h1, h3] at h
    · simp [h1, h3] at h ⊢
      rcases hi : init w { s with nextId := s.nextId + 1 } with ⟨s2, r⟩
      rw [hi] at h
      cases r with
      | error e2 =>
        exfalso
        apply h
        have hno := init_nativeOps w { s with nextId := s.nextId + 1 }
        rw [hi] at hno
        exact hno
      | ok u => exact init_ok_ran w _ s2 u hi

theorem tableModel_inplace_guard (w : World) (fn tt : String) (p e o : NDArray) (n : Int) (s : XState)
    (h : ((tableModel_inplace w fn tt p e o n s).1).nativeOps ≠ s.nativeOps) :
    ((tableModel_inplace w fn tt p e o n s).1).ran = true := by
  unfold tableModel_inplace validate_grid_size at h ⊢
  by_cases h1 : p.ndim ≠ 1 ∨ e.ndim ≠ 1 ∨ o.ndim ≠ 1
  · simp [h1] at h
  · by_cases h3 : e.size < 3
    · simp [h1, h3] at h
    · by_cases h4 : e.size = o.size + 1
      · have hge : ¬ (o.size + 1 < 3) := by omega
        simp [h1, h3, hge, h4] at h ⊢
        rcases hi : init w s with ⟨s2, r⟩
        rw [hi] at h
        cases r with
        | error e2 =>
          exfalso
          apply h
          have hno := init_nativeOps w s
          rw [hi] at hno
          exact hno
        | ok u => exact init_ok_ran w _ s2 u hi
      · simp [h1, h3, h4] at h

theorem init_preserves_inv (w : World) (s : XState) (h : InitInv s) :
    InitInv (init w s).1 := by
  obtain ⟨hle, hz⟩ := h
  by_cases h1 : s.ran
  · rw [init_of_ran w s h1]
    exact ⟨hle, hz⟩
  · have hz0 : s.fninitSuccesses = 0 := hz (by simpa using h1)
    by_cases h2 : w.headas.isNone
    · have e : init w s = (s, Except.error ConfigurationError) := by
        unfold init; simp [h1, h2]
      rw [e]
      exact ⟨hle, hz⟩
    · by_cases h3 : w.fninitFails s.fninitCalls
      · have e : init w s = ({ s with fninitCalls := s.fninitCalls + 1 }, Except.error (InitializationError (w.fninitDiag s.fninitCalls))) := by
          unfold init; simp [h1, h2, h3]
        rw [e]
        exact ⟨hle, fun _ => hz0⟩
      · have e : init w s = ({ s with ran := true, fninitCalls := s.fninitCalls + 1, fninitSuccesses := s.fninitSuccesses + 1 }, Except.ok ()) := by
          unfold init; simp [h1, h2, h3]
        rw [e]
        refine ⟨?_, ?_⟩
        · show s.fninitSuccesses + 1 ≤ 1
          omega
        · intro hfalse
          simp at hfalse

theorem initN_inv (w : World) (n : Nat) (s : XState) (h : InitInv s) :
    InitInv (initN w n s) := by
  induction n generalizing s with
  | zero => exact h
  | succ n ih => exact ih _ (init_preserves_inv w s h)

theorem initN_coutBuf (w : World) (n : Nat) (s : XState) :
    (initN w n s).coutBuf = s.coutBuf := by
  induction n generalizing s with
  | zero => rfl
  | succ n ih =>
    rw [initN, ih]
    exact init_coutBuf w s

/-- C4: calling the initialization guard `N ≥ 1` times performs the
one-time native setup successfully at most once; once the ready flag is
set every call returns immediately with the state untouched (no native
interaction); and the stdout buffer is back to its original value after
the `N`-th call regardless of `N`. -/
theorem C4_init_guard_idempotent (w : World) (s : XState) (N : Nat)
    (hN : 1 ≤ N) (h0 : s.fninitSuccesses = 0) :
    (initN w N s).fninitSuccesses ≤ 1
    ∧ (initN w N s).coutBuf = s.coutBuf
    ∧ (∀ t : XState, t.ran = true → init w t = (t, Except.ok ())) := by
  refine ⟨?_, initN_coutBuf w N s, fun t ht => init_of_ran w t ht⟩
  exact (initN_inv w N s ⟨by omega, fun _ => h0⟩).1

theorem C4_witness :
    1 ≤ 3 ∧ S0.fninitSuccesses = 0
    ∧ (initN W0 3 S0).fninitSuccesses ≤ 1
    ∧ (initN W0 3 S0).coutBuf = S0.coutBuf :=
  ⟨by omega, rfl, (C4_init_guard_idempotent W0 S0 3 (by omega) rfl).1,
    (C4_init_guard_idempotent W0 S0 3 (by omega) rfl).2.1⟩

/-- C5: with the guard not yet run, a missing `HEADAS` variable fails
with the configuration error (whose message names `HEADAS`) and leaves
the state — in particular the ready flag — untouched; a failing
`FNINIT` restores the stdout buffer, fails with the initialization
error carrying the captured diagnostic text, leaves `ran` false, and
any later call with the environment present attempts the setup
again. -/
theorem C5_init_failure_modes (w : World) (s : XState) (d : String) :
    (s.ran = false → w.headas = none →
      init w s = (s, Except.error ConfigurationError))
    ∧ ConfigurationError
        = XSError.runtimeError ("The " ++ "HEADAS" ++ " environment variable is not set!")
    ∧ (s.ran = false → w.headas.isSome = true → w.fninitFails s.fninitCalls = true →
        init w s = ({ s with fninitCalls := s.fninitCalls + 1 },
          Except.error (InitializationError (w.fninitDiag s.fninitCalls))))
    ∧ InitializationError d
        = XSError.runtimeError ("Unable to initialize XSPEC model library\n" ++ d)
    ∧ (s.ran = false → w.headas.isSome = true →
        ((init w s).1).fninitCalls = s.fninitCalls + 1) := by
  refine ⟨?_, rfl, ?_, rfl, ?_⟩
  · intro h1 h2
    unfold init
    simp [h1, h2]
  · intro h1 h2 h3
    have h2' : w.headas.isNone = false := by
      cases hh : w.headas with
      | none => rw [hh] at h2; simp at h2
      | some v => simp [hh]
    unfold init
    simp [h1, h2', h3]
  · intro h1 h2
    have h2' : w.headas.isNone = false := by
      cases hh : w.headas with
      | none => rw [hh] at h2; simp at h2
      | some v => simp [hh]
    unfold init
    by_cases h3 : w.fninitFails s.fninitCalls
    · simp [h1, h2', h3]
    · simp [h1, h2', h3]

theorem C5_witness :
    init WnoHead S0 = (S0, Except.error ConfigurationError)
    ∧ init WFail S0 = ({ S0 with fninitCalls := 1 },
        Except.error (InitializationError "FNINIT diagnostic output"))
    ∧ ((init WFail S0).1).fninitCalls = 1 :=
  ⟨(C5_init_failure_modes WnoHead S0 "").1 rfl rfl,
    (C5_init_failure_modes WFail S0 "").2.2.1 rfl rfl rfl,
    (C5_init_failure_modes WFail S0 "").2.2.2.2 rfl rfl⟩

/-- C1: in each of the nine parametrized adapters, a rank-1 parameter
buffer whose length differs from the model's fixed parameter count
makes the call fail with the parameter-count error (whose message
reports the expected and the received count), returning the incoming
state untouched: no native model invocation is recorded, no fresh
buffer id is consumed, and no in-place buffer is rewritten. -/
theorem C1_parameter_count_validation :
    (∀ (M : CModel) (w : World) (pars energyArray : NDArray) (sn : Int) (istr : String) (s : XState),
      pars.ndim = 1 → energyArray.ndim = 1 → pars.size ≠ M.numPars →
      wrapper_C M w pars energyArray sn istr s
        = (s, Except.error (ParameterCountError M.numPars pars.size)))
    ∧ (∀ (M : CModel) (w : World) (pars energyArray output : NDArray) (sn : Int) (istr : String) (s : XState),
      pars.ndim = 1 → energyArray.ndim = 1 → output.ndim = 1 → pars.size ≠ M.numPars →
      wrapper_inplace_C M w pars energyArray output sn istr s
        = (s, Except.error (ParameterCountError M.numPars pars.size)))
    ∧ (∀ (M : FModel) (w : World) (pars energyArray : NDArray) (sn : Int) (s : XState),
      pars.ndim = 1 → energyArray.ndim = 1 → pars.size ≠ M.numPars →
      wrapper_f M w pars energyArray sn s
        = (s, Except.error (ParameterCountError M.numPars pars.size)))
    ∧ (∀ (M : FModel) (w : World) (pars energyArray output : NDArray) (sn : Int) (s : XState),
      pars.ndim = 1 → energyArray.ndim = 1 → output.ndim = 1 → pars.size ≠ M.numPars →
      wrapper_inplace_f M w pars energyArray output sn s
        = (s, Except.error (ParameterCountError M.numPars pars.size)))
    ∧ (∀ (M : FModel) (w : World) (pars energyArray : NDArray) (sn : Int) (s : XState),
      pars.ndim = 1 → energyArray.ndim = 1 → pars.size ≠ M.numPars →
      wrapper_F M w pars energyArray sn s
        = (s, Except.error (ParameterCountError M.numPars pars.size)))
    ∧ (∀ (M : FModel) (w : World) (pars energyArray output : NDArray) (sn : Int) (s : XState),
      pars.ndim = 1 → energyArray.ndim = 1 → output.ndim = 1 → pars.size ≠ M.numPars →
      wrapper_inplace_F M w pars energyArray output sn s
        = (s, Except.error (ParameterCountError M.numPars pars.size)))
    ∧ (∀ (M : ConModel) (w : World) (pars energyArray inModel : NDArray) (sn : Int) (istr : String) (s : XState),
      pars.ndim = 1 → energyArray.ndim = 1 → inModel.ndim = 1 → pars.size ≠ M.numPars →
      wrapper_con_C M w pars energyArray inModel sn istr s
        = (s, Except.error (ParameterCountError M.numPars pars.size)))
    ∧ (∀ (M : ConModel) (w : World) (pars energyArray inModel : NDArray) (sn : Int) (s : XState),
      pars.ndim = 1 → energyArray.ndim = 1 → inModel.ndim = 1 → pars.size ≠ M.numPars →
      wrapper_con_f M w pars energyArray inModel sn s
        = (s, Except.error (ParameterCountError M.numPars pars.size)))
    ∧ (∀ (M : CXXModel) (w : World) (pars energyArray output : List ℚ) (sn : Int) (istr : String) (s : XState),
      pars.length ≠ M.numPars →
      wrapper_inplace_CXX M w pars energyArray output sn istr s
        = (s, Except.error (ParameterCountError M.numPars pars.length))) := by
  refine ⟨?_, ?_, ?_, ?_, ?_, ?_, ?_, ?_, ?_⟩
  · intro M w pars energyArray sn istr s h1 h2 hne
    unfold wrapper_C validate_par_size
    simp [h1, h2, Ne.symm hne]
  · intro M w pars energyArray output sn istr s h1 h2 h3 hne
    unfold wrapper_inplace_C validate_par_size
    simp [h1, h2, h3, Ne.symm hne]
  · intro M w pars energyArray sn s h1 h2 hne
    unfold wrapper_f validate_par_size
    simp [h1, h2, Ne.symm hne]
  · intro M w pars energyArray output sn s h1 h2 h3 hne
    unfold wrapper_inplace_f validate_par_size
    simp [h1, h2, h3, Ne.symm hne]
  · intro M w pars energyArray sn s h1 h2 hne
    unfold wrapper_F validate_par_size
    simp [h1, h2, Ne.symm hne]
  · intro M w pars energyArray output sn s h1 h2 h3 hne
    unfold wrapper_inplace_F validate_par_size
    simp [h1, h2, h3, Ne.symm hne]
  · intro M w pars energyArray inModel sn istr s h1 h2 h3 hne
    unfold wrapper_con_C validate_par_size
    simp [h1, h2, h3, Ne.symm hne]
  · intro M w pars energyArray inModel sn s h1 h2 h3 hne
    unfold wrapper_con_f validate_par_size
    simp [h1, h2, h3, Ne.symm hne]
  · intro M w pars energyArray output sn istr s hne
    unfold wrapper_inplace_CXX validate_par_size
    simp [Ne.symm hne]

theorem C1_witness :
    wrapper_C Mc3 W0 parArr2 egrid4 1 "" S0
      = (S0, Except.error (ParameterCountError 3 2)) :=
  C1_parameter_count_validation.1 Mc3 W0 parArr2 egrid4 1 "" S0 rfl rfl (by decide)

/-- C2: every adapter (the nine parametrized wrappers and both table
bindings) rejects an energy grid with fewer than 3 edges with the
grid-too-small error, returning the state untouched (so no native call
is made); and with a well-formed grid of `N ≥ 3` edges (and the model's
arity), every allocate-form adapter returns a freshly allocated flux
buffer (id = the allocator's next id) of length exactly `N - 1`. -/
theorem C2_grid_too_small_and_alloc_length :
    (∀ (M : CModel) (w : World) (pars energyArray : NDArray) (sn : Int) (istr : String) (s : XState),
      pars.ndim = 1 → energyArray.ndim = 1 → pars.size = M.numPars → energyArray.size < 3 →
      wrapper_C M w pars energyArray sn istr s = (s, Except.error GridTooSmallError))
    ∧ (∀ (M : CModel) (w : World) (pars energyArray output : NDArray) (sn : Int) (istr : String) (s : XState),
      pars.ndim = 1 → energyArray.ndim = 1 → output.ndim = 1 → pars.size = M.numPars → energyArray.size < 3 →
      wrapper_inplace_C M w pars energyArray output sn istr s = (s, Except.error GridTooSmallError))
    ∧ (∀ (M : FModel) (w : World) (pars energyArray : NDArray) (sn : Int) (s : XState),
      pars.ndim = 1 → energyArray.ndim = 1 → pars.size = M.numPars → energyArray.size < 3 →
      wrapper_f M w pars energyArray sn s = (s, Except.error GridTooSmallError))
    ∧ (∀ (M : FModel) (w : World) (pars energyArray output : NDArray) (sn : Int) (s : XState),
      pars.ndim = 1 → energyArray.ndim = 1 → output.ndim = 1 → pars.size = M.numPars → energyArray.size < 3 →
      wrapper_inplace_f M w pars energyArray output sn s = (s, Except.error GridTooSmallError))
    ∧ (∀ (M : FModel) (w : World) (pars energyArray : NDArray) (sn : Int) (s : XState),
      pars.ndim = 1 → energyArray.ndim = 1 → pars.size = M.numPars → energyArray.size < 3 →
      wrapper_F M w pars energyArray sn s = (s, Except.error GridTooSmallError))
    ∧ (∀ (M : FModel) (w : World) (pars energyArray output : NDArray) (sn : Int) (s : XState),
      pars.ndim = 1 → energyArray.ndim = 1 → output.ndim = 1 → pars.size = M.numPars → energyArray.size < 3 →
      wrapper_inplace_F M w pars energyArray output sn s = (s, Except.error GridTooSmallError))
    ∧ (∀ (M : ConModel) (w : World) (pars energyArray inModel : NDArray) (sn : Int) (istr : String) (s : XState),
      pars.ndim = 1 → energyArray.ndim = 1 → inModel.ndim = 1 → pars.size = M.numPars → energyArray.size < 3 →
      wrapper_con_C M w pars energyArray inModel sn istr s = (s, Except.error GridTooSmallError))
    ∧ (∀ (M : ConModel) (w : World) (pars energyArray inModel : NDArray) (sn : Int) (s : XState),
      pars.ndim = 1 → energyArray.ndim = 1 → inModel.ndim = 1 → pars.size = M.numPars → energyArray.size < 3 →
      wrapper_con_f M w pars energyArray inModel sn s = (s, Except.error GridTooSmallError))
    ∧ (∀ (M : CXXModel) (w : World) (pars energyArray output : List ℚ) (sn : Int) (istr : String) (s : XState),
      pars.length = M.numPars → energyArray.length < 3 →
      wrapper_inplace_CXX M w pars energyArray output sn istr s = (s, Except.error GridTooSmallError))
    ∧ (∀ (w : World) (fn tt : String) (pars energyArray : NDArray) (sn : Int) (s : XState),
      pars.ndim = 1 → energyArray.ndim = 1 → energyArray.size < 3 →
      tableModel w fn tt pars energyArray sn s = (s, Except.error GridTooSmallError))
    ∧ (∀ (w : World) (fn tt : String) (pars energyArray output : NDArray) (sn : Int) (s : XState),
      pars.ndim = 1 → energyArray.ndim = 1 → output.ndim = 1 → energyArray.size < 3 →
      tableModel_inplace w fn tt pars energyArray output sn s = (s, Except.error GridTooSmallError))
    ∧ (∀ (M : CModel) (w : World) (pars energyArray : NDArray) (sn : Int) (istr : String) (s : XState),
      pars.ndim = 1 → energyArray.ndim = 1 → pars.size = M.numPars → 3 ≤ energyArray.size →
      initReady w s →
      ∃ a : NDArray, (wrapper_C M w pars energyArray sn istr s).2 = Except.ok a
        ∧ a.id = s.nextId ∧ a.ndim = 1 ∧ a.data.length = energyArray.size - 1)
    ∧ (∀ (M : FModel) (w : World) (pars energyArray : NDArray) (sn : Int) (s : XState),
      pars.ndim = 1 → energyArray.ndim = 1 → pars.size = M.numPars → 3 ≤ energyArray.size →
      initReady w s →
      ∃ a : NDArray, (wrapper_f M w pars energyArray sn s).2 = Except.ok a
        ∧ a.id = s.nextId ∧ a.ndim = 1 ∧ a.data.length = energyArray.size - 1)
    ∧ (∀ (M : FModel) (w : World) (pars energyArray : NDArray) (sn : Int) (s : XState),
      pars.ndim = 1 → energyArray.ndim = 1 → pars.size = M.numPars → 3 ≤ energyArray.size →
      initReady w s →
      ∃ a : NDArray, (wrapper_F M w pars energyArray sn s).2 = Except.ok a
        ∧ a.id = s.nextId ∧ a.ndim = 1 ∧ a.data.length = energyArray.size - 1)
    ∧ (∀ (w : World) (fn tt : String) (pars energyArray : NDArray) (sn : Int) (s : XState),
      pars.ndim = 1 → energyArray.ndim = 1 → 3 ≤ energyArray.size →
      initReady w s →
      ∃ a : NDArray, (tableModel w fn tt pars energyArray sn s).2 = Except.ok a
        ∧ a.id = s.nextId ∧ a.ndim = 1 ∧ a.data.length = energyArray.size - 1) := by
  refine ⟨?_, ?_, ?_, ?_, ?_, ?_, ?_, ?_, ?_, ?_, ?_, ?_, ?_, ?_, ?_⟩
  · intro M w pars energyArray sn istr s h1 h2 hpc h3
    unfold wrapper_C validate_par_size
    simp [h1, h2, hpc.symm, h3]
  · intro M w pars energyArray output sn istr s h1 h2 ho hpc h3
    unfold wrapper_inplace_C validate_par_size
    simp [h1, h2, ho, hpc.symm, h3]
  · intro M w pars energyArray sn s h1 h2 hpc h3
    unfold wrapper_f validate_par_size
    simp [h1, h2, hpc.symm, h3]
  · intro M w pars energyArray output sn s h1 h2 ho hpc h3
    unfold wrapper_inplace_f validate_par_size
    simp [h1, h2, ho, hpc.symm, h3]
  · intro M w pars energyArray sn s h1 h2 hpc h3
    unfold wrapper_F validate_par_size
    simp [h1, h2, hpc.symm, h3]
  · intro M w pars energyArray output sn s h1 h2 ho hpc h3
    unfold wrapper_inplace_F validate_par_size
    simp [h1, h2, ho, hpc.symm, h3]
  · intro M w pars energyArray inModel sn istr s h1 h2 ho hpc h3
    unfold wrapper_con_C validate_par_size
    simp [h1, h2, ho, hpc.symm, h3]
  · intro M w pars energyArray inModel sn s h1 h2 ho hpc h3
    unfold wrapper_con_f validate_par_size
    simp [h1, h2, ho, hpc.symm, h3]
  · intro M w pars energyArray output sn istr s hpc h3
    unfold wrapper_inplace_CXX validate_par_size
    simp [hpc.symm, h3]
  · intro w fn tt pars energyArray sn s h1 h2 h3
    unfold tableModel
    simp [h1, h2, h3]
  · intro w fn tt pars energyArray output sn s h1 h2 ho h3
    unfold tableModel_inplace
    simp [h1, h2, ho, h3]
  · intro M w pars energyArray sn istr s h1 h2 hpc h3 hready
    unfold wrapper_C validate_par_size
    have h3' : ¬ (energyArray.size < 3) := by omega
    obtain ⟨s', e, hran, hops, hcout, hcerr, hnid⟩ :=
      init_ready w { s with nextId := s.nextId + 1 } hready
    refine ⟨⟨s.nextId, 1, natWrite (energyArray.size - 1) (M.run energyArray.data (energyArray.size - 1) pars.data sn istr)⟩, ?_, rfl, rfl, ?_⟩
    · simp [h1, h2, hpc.symm, h3', e]
    · simp [natWrite]
  · intro M w pars energyArray sn s h1 h2 hpc h3 hready
    unfold wrapper_f validate_par_size
    have h3' : ¬ (energyArray.size < 3) := by omega
    obtain ⟨s', e, hran, hops, hcout, hcerr, hnid⟩ :=
      init_ready w { s with nextId := s.nextId + 1 } hready
    refine ⟨⟨s.nextId, 1, natWrite (energyArray.size - 1) (M.run energyArray.data (energyArray.size - 1) pars.data sn)⟩, ?_, rfl, rfl, ?_⟩
    · simp [h1, h2, hpc.symm, h3', e]
    · simp [natWrite]
  · intro M w pars energyArray sn s h1 h2 hpc h3 hready
    unfold wrapper_F validate_par_size
    have h3' : ¬ (energyArray.size < 3) := by omega
    obtain ⟨s', e, hran, hops, hcout, hcerr, hnid⟩ :=
      init_ready w { s with nextId := s.nextId + 1 } hready
    refine ⟨⟨s.nextId, 1, natWrite (energyArray.size - 1) (M.run energyArray.data (energyArray.size - 1) pars.data sn)⟩, ?_, rfl, rfl, ?_⟩
    · simp [h1, h2, hpc.symm, h3', e]
    · simp [natWrite]
  · intro w fn tt pars energyArray sn s h1 h2 h3 hready
    unfold tableModel
    have h3' : ¬ (energyArray.size < 3) := by omega
    obtain ⟨s', e, hran, hops, hcout, hcerr, hnid⟩ :=
      init_ready w { s with nextId := s.nextId + 1 } hready
    refine ⟨⟨s.nextId, 1, natWrite (energyArray.size - 1) (w.tabint energyArray.data (energyArray.size - 1) pars.data pars.size fn sn tt)⟩, ?_, rfl, rfl, ?_⟩
    · simp [h1, h2, h3', e]
    · simp [natWrite]

theorem C2_witness :
    wrapper_C Mc3 W0 parArr3 egrid2 1 "" S0 = (S0, Except.error GridTooSmallError)
    ∧ ∃ a : NDArray, (wrapper_C Mc3 W0 parArr3 egrid3 1 "" S0).2 = Except.ok a
        ∧ a.id = S0.nextId ∧ a.ndim = 1 ∧ a.data.length = 2 :=
  ⟨C2_grid_too_small_and_alloc_length.1 Mc3 W0 parArr3 egrid2 1 "" S0 rfl rfl (by decide) (by decide),
    C2_grid_too_small_and_alloc_length.2.2.2.2.2.2.2.2.2.2.2.1 Mc3 W0 parArr3 egrid3 1 "" S0
      rfl rfl (by decide) (by decide) (Or.inr ⟨rfl, rfl⟩)⟩

theorem init_error_runtime (w : World) (s s2 : XState) (e : XSError)
    (h : init w s = (s2, Except.error e)) : errClass e = ErrClass.runtime := by
  unfold init at h
  by_cases h1 : s.ran
  · simp [h1] at h
  · by_cases h2 : w.headas.isNone
    · simp [h1, h2] at h
      rw [← h.2]
      rfl
    · by_cases h3 : w.fninitFails s.fninitCalls
      · simp [h1, h2, h3] at h
        rw [← h.2]
        rfl
      · simp [h1, h2, h3] at h

/-- C3: for every in-place or convolution adapter, with rank-1 buffers,
the model's arity and at least 3 bin edges, the call fails with the
grid-size error exactly when `grid_len ≠ output_len + 1`, and in that
case it returns the incoming state untouched — no native invocation is
recorded and no buffer is rewritten before the failure. -/
theorem C3_grid_consistency :
    (∀ (M : CModel) (w : World) (pars energyArray output : NDArray) (sn : Int) (istr : String) (s : XState),
      pars.ndim = 1 → energyArray.ndim = 1 → output.ndim = 1 → pars.size = M.numPars → 3 ≤ energyArray.size →
      ((wrapper_inplace_C M w pars energyArray output sn istr s).2
          = Except.error (GridSizeError energyArray.size output.size)
        ↔ energyArray.size ≠ output.size + 1)
      ∧ (energyArray.size ≠ output.size + 1 →
        wrapper_inplace_C M w pars energyArray output sn istr s
          = (s, Except.error (GridSizeError energyArray.size output.size))))
    ∧ (∀ (M : FModel) (w : World) (pars energyArray output : NDArray) (sn : Int) (s : XState),
      pars.ndim = 1 → energyArray.ndim = 1 → output.ndim = 1 → pars.size = M.numPars → 3 ≤ energyArray.size →
      ((wrapper_inplace_f M w pars energyArray output sn s).2
          = Except.error (GridSizeError energyArray.size output.size)
        ↔ energyArray.size ≠ output.size + 1)
      ∧ (energyArray.size ≠ output.size + 1 →
        wrapper_inplace_f M w pars energyArray output sn s
          = (s, Except.error (GridSizeError energyArray.size output.size))))
    ∧ (∀ (M : FModel) (w : World) (pars energyArray output : NDArray) (sn : Int) (s : XState),
      pars.ndim = 1 → energyArray.ndim = 1 → output.ndim = 1 → pars.size = M.numPars → 3 ≤ energyArray.size →
      ((wrapper_inplace_F M w pars energyArray output sn s).2
          = Except.error (GridSizeError energyArray.size output.size)
        ↔ energyArray.size ≠ output.size + 1)
      ∧ (energyArray.size ≠ output.size + 1 →
        wrapper_inplace_F M w pars energyArray output sn s
          = (s, Except.error (GridSizeError energyArray.size output.size))))
    ∧ (∀ (M : ConModel) (w : World) (pars energyArray inModel : NDArray) (sn : Int) (istr : String) (s : XState),
      pars.ndim = 1 → energyArray.ndim = 1 → inModel.ndim = 1 → pars.size = M.numPars → 3 ≤ energyArray.size →
      ((wrapper_con_C M w pars energyArray inModel sn istr s).2
          = Except.error (GridSizeError energyArray.size inModel.size)
        ↔ energyArray.size ≠ inModel.size + 1)
      ∧ (energyArray.size ≠ inModel.size + 1 →
        wrapper_con_C M w pars energyArray inModel sn istr s
          = (s, Except.error (GridSizeError energyArray.size inModel.size))))
    ∧ (∀ (M : ConModel) (w : World) (pars energyArray inModel : NDArray) (sn : Int) (s : XState),
      pars.ndim = 1 → energyArray.ndim = 1 → inModel.ndim = 1 → pars.size = M.numPars → 3 ≤ energyArray.size →
      ((wrapper_con_f M w pars energyArray inModel sn s).2
          = Except.error (GridSizeError energyArray.size inModel.size)
        ↔ energyArray.size ≠ inModel.size + 1)
      ∧ (energyArray.size ≠ inModel.size + 1 →
        wrapper_con_f M w pars energyArray inModel sn s
          = (s, Except.error (GridSizeError energyArray.size inModel.size))))
    ∧ (∀ (M : CXXModel) (w : World) (pars energyArray output : List ℚ) (sn : Int) (istr : String) (s : XState),
      pars.length = M.numPars → 3 ≤ energyArray.length →
      ((wrapper_inplace_CXX M w pars energyArray output sn istr s).2
          = Except.error (GridSizeError energyArray.length output.length)
        ↔ energyArray.length ≠ output.length + 1)
      ∧ (energyArray.length ≠ output.length + 1 →
        wrapper_inplace_CXX M w pars energyArray output sn istr s
          = (s, Except.error (GridSizeError energyArray.length output.length))))
    ∧ (∀ (w : World) (fn tt : String) (pars energyArray output : NDArray) (sn : Int) (s : XState),
      pars.ndim = 1 → energyArray.ndim = 1 → output.ndim = 1 → 3 ≤ energyArray.size →
      ((tableModel_inplace w fn tt pars energyArray output sn s).2
          = Except.error (GridSizeError energyArray.size output.size)
        ↔ energyArray.size ≠ output.size + 1)
      ∧ (energyArray.size ≠ output.size + 1 →
        tableModel_inplace w fn tt pars energyArray output sn s
          = (s, Except.error (GridSizeError energyArray.size output.size)))) := by
  refine ⟨?_, ?_, ?_, ?_, ?_, ?_, ?_⟩
  · intro M w pars energyArray output sn istr s h1 h2 ho hpc h3
    have h3' : ¬ (energyArray.size < 3) := by omega
    by_cases hsz : energyArray.size = output.size + 1
    · refine ⟨⟨fun habs => ?_, fun hne => absurd hsz hne⟩, fun hne => absurd hsz hne⟩
      exfalso
      have hge : ¬ (output.size + 1 < 3) := by omega
      unfold wrapper_inplace_C validate_par_size validate_grid_size at habs
      rcases hi : init w s with ⟨s2, r⟩
      cases r with
      | error e =>
        simp [h1, h2, ho, hpc.symm, h3', hge, hsz, hi] at habs
        have hcl := init_error_runtime w s s2 e hi
        subst habs
        simp [GridSizeError, errClass] at hcl
      | ok u =>
        simp [h1, h2, ho, hpc.symm, h3', hge, hsz, hi] at habs
    · have hres : wrapper_inplace_C M w pars energyArray output sn istr s
          = (s, Except.error (GridSizeError energyArray.size output.size)) := by
        unfold wrapper_inplace_C validate_par_size validate_grid_size
        simp [h1, h2, ho, hpc.symm, h3', hsz]
      exact ⟨⟨fun _ => hsz, fun _ => by rw [hres]⟩, fun _ => hres⟩
  · intro M w pars energyArray output sn s h1 h2 ho hpc h3
    have h3' : ¬ (energyArray.size < 3) := by omega
    by_cases hsz : energyArray.size = output.size + 1
    · refine ⟨⟨fun habs => ?_, fun hne => absurd hsz hne⟩, fun hne => absurd hsz hne⟩
      exfalso
      have hge : ¬ (output.size + 1 < 3) := by omega
      unfold wrapper_inplace_f validate_par_size validate_grid_size at habs
      rcases hi : init w s with ⟨s2, r⟩
      cases r with
      | error e =>
        simp [h1, h2, ho, hpc.symm, h3', hge, hsz, hi] at habs
        have hcl := init_error_runtime w s s2 e hi
        subst habs
        simp [GridSizeError, errClass] at hcl
      | ok u =>
        simp [h1, h2, ho, hpc.symm, h3', hge, hsz, hi] at habs
    · have hres : wrapper_inplace_f M w pars energyArray output sn s
          = (s, Except.error (GridSizeError energyArray.size output.size)) := by
        unfold wrapper_inplace_f validate_par_size validate_grid_size
        simp [h1, h2, ho, hpc.symm, h3', hsz]
      exact ⟨⟨fun _ => hsz, fun _ => by rw [hres]⟩, fun _ => hres⟩
  · intro M w pars energyArray output sn s h1 h2 ho hpc h3
    have h3' : ¬ (energyArray.size < 3) := by omega
    by_cases hsz : energyArray.size = output.size + 1
    · refine ⟨⟨fun habs => ?_, fun hne => absurd hsz hne⟩, fun hne => absurd hsz hne⟩
      exfalso
      have hge : ¬ (output.size + 1 < 3) := by omega
      unfold wrapper_inplace_F validate_par_size validate_grid_size at habs
      rcases hi : init w s with ⟨s2, r⟩
      cases r with
      | error e =>
        simp [h1, h2, ho, hpc.symm, h3', hge, hsz, hi] at habs
        have hcl := init_error_runtime w s s2 e hi
        subst habs
        simp [GridSizeError, errClass] at hcl
      | ok u =>
        simp [h1, h2, ho, hpc.symm, h3', hge, hsz, hi] at habs
    · have hres : wrapper_inplace_F M w pars energyArray output sn s
          = (s, Except.error (GridSizeError energyArray.size output.size)) := by
        unfold wrapper_inplace_F validate_par_size validate_grid_size
        simp [h1, h2, ho, hpc.symm, h3', hsz]
      exact ⟨⟨fun _ => hsz, fun _ => by rw [hres]⟩, fun _ => hres⟩
  · intro M w pars energyArray inModel sn istr s h1 h2 ho hpc h3
    have h3' : ¬ (energyArray.size < 3) := by omega
    by_cases hsz : energyArray.size = inModel.size + 1
    · refine ⟨⟨fun habs => ?_, fun hne => absurd hsz hne⟩, fun hne => absurd hsz hne⟩
      exfalso
      have hge : ¬ (inModel.size + 1 < 3) := by omega
      unfold wrapper_con_C validate_par_size validate_grid_size at habs
      rcases hi : init w s with ⟨s2, r⟩
      cases r with
      | error e =>
        simp [h1, h2, ho, hpc.symm, h3', hge, hsz, hi] at habs
        have hcl := init_error_runtime w s s2 e hi
        subst habs
        simp [GridSizeError, errClass] at hcl
      | ok u =>
        simp [h1, h2, ho, hpc.symm, h3', hge, hsz, hi] at habs
    · have hres : wrapper_con_C M w pars energyArray inModel sn istr s
          = (s, Except.error (GridSizeError energyArray.size inModel.size)) := by
        unfold wrapper_con_C validate_par_size validate_grid_size
        simp [h1, h2, ho, hpc.symm, h3', hsz]
      exact ⟨⟨fun _ => hsz, fun _ => by rw [hres]⟩, fun _ => hres⟩
  · intro M w pars energyArray inModel sn s h1 h2 ho hpc h3
    have h3' : ¬ (energyArray.size < 3) := by omega
    by_cases hsz : energyArray.size = inModel.size + 1
    · refine ⟨⟨fun habs => ?_, fun hne => absurd hsz hne⟩, fun hne => absurd hsz hne⟩
      exfalso
      have hge : ¬ (inModel.size + 1 < 3) := by omega
      unfold wrapper_con_f validate_par_size validate_grid_size at habs
      rcases hi : init w s with ⟨s2, r⟩
      cases r with
      | error e =>
        simp [h1, h2, ho, hpc.symm, h3', hge, hsz, hi] at habs
        have hcl := init_error_runtime w s s2 e hi
        subst habs
        simp [GridSizeError, errClass] at hcl
      | ok u =>
        simp [h1, h2, ho, hpc.symm, h3', hge, hsz, hi] at habs
    · have hres : wrapper_con_f M w pars energyArray inModel sn s
          = (s, Except.error (GridSizeError energyArray.size inModel.size)) := by
        unfold wrapper_con_f validate_par_size validate_grid_size
        simp [h1, h2, ho, hpc.symm, h3', hsz]
      exact ⟨⟨fun _ => hsz, fun _ => by rw [hres]⟩, fun _ => hres⟩
  · intro M w pars energyArray output sn istr s hpc h3
    have h3' : ¬ (energyArray.length < 3) := by omega
    by_cases hsz : energyArray.length = output.length + 1
    · refine ⟨⟨fun habs => ?_, fun hne => absurd hsz hne⟩, fun hne => absurd hsz hne⟩
      exfalso
      have hge : ¬ (output.length + 1 < 3) := by omega
      unfold wrapper_inplace_CXX validate_par_size validate_grid_size at habs
      rcases hi : init w s with ⟨s2, r⟩
      cases r with
      | error e =>
        simp [hpc.symm, h3', hge, hsz, hi] at habs
        have hcl := init_error_runtime w s s2 e hi
        subst habs
        simp [GridSizeError, errClass] at hcl
      | ok u =>
        simp [hpc.symm, h3', hge, hsz, hi] at habs
    · have hres : wrapper_inplace_CXX M w pars energyArray output sn istr s
          = (s, Except.error (GridSizeError energyArray.length output.length)) := by
        unfold wrapper_inplace_CXX validate_par_size validate_grid_size
        simp [hpc.symm, h3', hsz]
      exact ⟨⟨fun _ => hsz, fun _ => by rw [hres]⟩, fun _ => hres⟩
  · intro w fn tt pars energyArray output sn s h1 h2 ho h3
    have h3' : ¬ (energyArray.size < 3) := by omega
    by_cases hsz : energyArray.size = output.size + 1
    · refine ⟨⟨fun habs => ?_, fun hne => absurd hsz hne⟩, fun hne => absurd hsz hne⟩
      exfalso
      have hge : ¬ (output.size + 1 < 3) := by omega
      unfold tableModel_inplace validate_grid_size at habs
      rcases hi : init w s with ⟨s2, r⟩
      cases r with
      | error e =>
        simp [h1, h2, ho, h3', hge, hsz, hi] at habs
        have hcl := init_error_runtime w s s2 e hi
        subst habs
        simp [GridSizeError, errClass] at hcl
      | ok u =>
        simp [h1, h2, ho, h3', hge, hsz, hi] at habs
    · have hres : tableModel_inplace w fn tt pars energyArray output sn s
          = (s, Except.error (GridSizeError energyArray.size output.size)) := by
        unfold tableModel_inplace validate_grid_size
        simp [h1, h2, ho, h3', hsz]
      exact ⟨⟨fun _ => hsz, fun _ => by rw [hres]⟩, fun _ => hres⟩

theorem C3_witness :
    wrapper_inplace_C Mc3 W0 parArr3 egrid4 outArr1 1 "" S0
      = (S0, Except.error (GridSizeError 4 1)) :=
  (C3_grid_consistency.1 Mc3 W0 parArr3 egrid4 outArr1 1 "" S0
    rfl rfl rfl (by decide) (by decide)).2 (by decide)

/-- C6: for any model, parameter buffer, grid, spectrum number and init
string (rank-1 buffers, the model's arity, a well-formed grid, and an
output buffer of the matching size), the flux array returned by the
allocate-form adapter has exactly the same contents as the caller's
buffer after the in-place adapter ran, and the in-place adapter hands
back the very buffer object it was given (same id), not a new one. -/
theorem C6_alloc_inplace_agree (M : CModel) (w : World)
    (pars energyArray output : NDArray) (sn : Int) (istr : String) (s : XState)
    (h1 : pars.ndim = 1) (h2 : energyArray.ndim = 1) (ho : output.ndim = 1)
    (hpc : pars.size = M.numPars) (h3 : 3 ≤ energyArray.size)
    (hsz : energyArray.size = output.size + 1) (hready : initReady w s) :
    ∃ a b : NDArray,
      (wrapper_C M w pars energyArray sn istr s).2 = Except.ok a
      ∧ (wrapper_inplace_C M w pars energyArray output sn istr s).2 = Except.ok b
      ∧ a.data = b.data
      ∧ b.id = output.id ∧ b.ndim = output.ndim := by
  have h3' : ¬ (energyArray.size < 3) := by omega
  have hge : ¬ (output.size + 1 < 3) := by omega
  obtain ⟨s', e, _, _, _, _, _⟩ :=
    init_ready w { s with nextId := s.nextId + 1 } hready
  obtain ⟨s'', e2, _, _, _, _, _⟩ := init_ready w s hready
  refine ⟨⟨s.nextId, 1, natWrite (energyArray.size - 1) (M.run energyArray.data (energyArray.size - 1) pars.data sn istr)⟩,
    { output with data := natWrite (energyArray.size - 1) (M.run energyArray.data (energyArray.size - 1) pars.data sn istr) },
    ?_, ?_, rfl, rfl, rfl⟩
  · unfold wrapper_C validate_par_size
    simp [h1, h2, hpc.symm, h3', e]
  · unfold wrapper_inplace_C validate_par_size validate_grid_size
    simp [h1, h2, ho, hpc.symm, h3', hge, hsz, e2]

theorem C6_witness :
    ∃ a b : NDArray,
      (wrapper_C Mc3 W0 parArr3 egrid4 1 "" S0).2 = Except.ok a
      ∧ (wrapper_inplace_C Mc3 W0 parArr3 egrid4 outArr3 1 "" S0).2 = Except.ok b
      ∧ a.data = b.data ∧ b.id = outArr3.id ∧ b.ndim = outArr3.ndim :=
  C6_alloc_inplace_agree Mc3 W0 parArr3 egrid4 outArr3 1 "" S0
    rfl rfl rfl (by decide) (by decide) (by decide) (Or.inr ⟨rfl, rfl⟩)

/-- C7 counterexample: two distinct validation failures — a grid with
too few edges in `wrapper_C`, and a grid/output size mismatch in
`wrapper_inplace_C` — produce different error values that share one
exception class (`pybind11::value_error`), and the parameter-count
error shares its class (`std::runtime_error`) with the
missing-environment error, so a caller cannot tell these conditions
apart by the error's type alone. -/
theorem C7_counterexample :
    (wrapper_C Mc3 W0 parArr3 egrid2 1 "" S0).2 = Except.error GridTooSmallError
    ∧ (wrapper_inplace_C Mc3 W0 parArr3 egrid4 outArr1 1 "" S0).2
        = Except.error (GridSizeError 4 1)
    ∧ GridTooSmallError ≠ GridSizeError 4 1
    ∧ errClass GridTooSmallError = errClass (GridSizeError 4 1)
    ∧ (wrapper_C Mc3 W0 parArr2 egrid4 1 "" S0).2
        = Except.error (ParameterCountError 3 2)
    ∧ init WnoHead S0 = (S0, Except.error ConfigurationError)
    ∧ ParameterCountError 3 2 ≠ ConfigurationError
    ∧ errClass (ParameterCountError 3 2) = errClass ConfigurationError := by
  refine ⟨rfl, rfl, ?_, rfl, rfl, rfl, ?_, rfl⟩
  · decide
  · decide

/-- C7 amended: every failure this layer raises is drawn from the nine
named conditions, but they surface as only four exception types —
configuration, initialization and parameter-count failures are all
`std::runtime_error`; dimensionality, grid-too-small and grid-size
failures are all `pybind11::value_error`; key lookups raise
`pybind11::key_error` and index lookups `pybind11::index_error` — so
two distinct conditions sharing a class are distinguishable only by
message, not by type. -/
theorem C7_amended_four_classes (expected got energySize modelSize : Nat)
    (msg diag key : String) :
    errClass ConfigurationError = ErrClass.runtime
    ∧ errClass (InitializationError diag) = ErrClass.runtime
    ∧ errClass (ParameterCountError expected got) = ErrClass.runtime
    ∧ errClass (DimensionalityError msg) = ErrClass.value
    ∧ errClass GridTooSmallError = ErrClass.value
    ∧ errClass (GridSizeError energySize modelSize) = ErrClass.value
    ∧ errClass (KeyNotFoundError key) = ErrClass.key
    ∧ errClass (IndexOutOfRangeError msg) = ErrClass.index :=
  ⟨rfl, rfl, rfl, rfl, rfl, rfl, rfl, rfl⟩

/-- C9: every exported accessor and model wrapper runs the lazy
initialization guard before any native call — whenever an invocation
extended the list of native calls, the guard had succeeded (the ready
flag is set in the resulting state); by contrast the import-time
`numberElements` attribute reads the native layer's element count while
leaving the guard state (ready flag, `FNINIT` attempts) untouched, so
that native interaction happens before the environment check ever
runs. -/
theorem C9_lazy_init_guard :
    (∀ (f : ExportedFn) (w : World) (s : XState),
      (touched f w s).nativeOps ≠ s.nativeOps → (touched f w s).ran = true)
    ∧ (∀ (w : World) (s : XState),
      numberElements w s = (pushOp "FunctionUtility::NELEMS" s, w.nelems)
      ∧ (numberElements w s).1.ran = s.ran
      ∧ (numberElements w s).1.fninitCalls = s.fninitCalls) := by
  constructor
  · intro f w s h
    cases f with
    | getVersionFn =>
      simp only [touched] at h ⊢
      rw [get_version_eq] at h ⊢
      exact afterInit_ran w s _ (fun t ht => ht) h
    | chatterGetFn =>
      simp only [touched] at h ⊢
      rw [chatter_get_eq] at h ⊢
      exact afterInit_ran w s _ (fun t ht => ht) h
    | chatterSetFn i =>
      simp only [touched] at h ⊢
      rw [chatter_set_eq] at h ⊢
      exact afterInit_ran w s _ (fun t ht => ht) h
    | abundanceGetFn =>
      simp only [touched] at h ⊢
      rw [abundance_get_eq] at h ⊢
      exact afterInit_ran w s _ (fun t ht => ht) h
    | abundanceSetFn v =>
      simp only [touched] at h ⊢
      rw [abundance_set_eq] at h ⊢
      exact afterInit_ran w s _ (fun t ht => ht) h
    | crossSectionGetFn =>
      simp only [touched] at h ⊢
      rw [cross_section_get_eq] at h ⊢
      exact afterInit_ran w s _ (fun t ht => ht) h
    | crossSectionSetFn v =>
      simp only [touched] at h ⊢
      rw [cross_section_set_eq] at h ⊢
      exact afterInit_ran w s _ (fun t ht => ht) h
    | cosmologyGetFn =>
      simp only [touched] at h ⊢
      rw [cosmology_get_eq] at h ⊢
      exact afterInit_ran w s _ (fun t ht => ht) h
    | cosmologySetFn h0 q0 l0 =>
      simp only [touched] at h ⊢
      rw [cosmology_set_eq] at h ⊢
      exact afterInit_ran w s _ (fun t ht => ht) h
    | clearXFLTFn =>
      simp only [touched] at h ⊢
      rw [clearXFLT_eq] at h ⊢
      exact afterInit_ran w s _ (fun t ht => ht) h
    | getNumberXFLTFn ifl =>
      simp only [touched] at h ⊢
      rw [getNumberXFLT_eq] at h ⊢
      exact afterInit_ran w s _ (fun t ht => ht) h
    | getXFLTAllFn ifl =>
      simp only [touched] at h ⊢
      rw [getXFLT_all_eq] at h ⊢
      exact afterInit_ran w s _ (fun t ht => ht) h
    | getXFLTKeyFn ifl i =>
      simp only [touched] at h ⊢
      rw [getXFLT_key_eq] at h ⊢
      exact afterInit_ran w s _ (fun t ht => ht) h
    | getXFLTNameFn ifl skey =>
      simp only [touched] at h ⊢
      rw [getXFLT_name_eq] at h ⊢
      exact afterInit_ran w s _ (fun t ht => ht) h
    | inXFLTKeyFn ifl i =>
      simp only [touched] at h ⊢
      rw [inXFLT_key_eq] at h ⊢
      exact afterInit_ran w s _ (fun t ht => ht) h
    | inXFLTNameFn ifl skey =>
      simp only [touched] at h ⊢
      rw [inXFLT_name_eq] at h ⊢
      exact afterInit_ran w s _ (fun t ht => ht) h
    | setXFLTFn ifl values =>
      simp only [touched] at h ⊢
      rw [setXFLT_eq] at h ⊢
      exact afterInit_ran w s _ (fun t ht => ht) h
    | clearModelStringFn =>
      simp only [touched] at h ⊢
      rw [clearModelString_eq] at h ⊢
      exact afterInit_ran w s _ (fun t ht => ht) h
    | getModelStringAllFn =>
      simp only [touched] at h ⊢
      rw [getModelString_all_eq] at h ⊢
      exact afterInit_ran w s _ (fun t ht => ht) h
    | setModelStringFn key value =>
      simp only [touched] at h ⊢
      rw [setModelString_eq] at h ⊢
      exact afterInit_ran w s _ (fun t ht => ht) h
    | clearDbFn =>
      simp only [touched] at h ⊢
      rw [clearDb_eq] at h ⊢
      exact afterInit_ran w s _ (fun t ht => ht) h
    | getDbAllFn =>
      simp only [touched] at h ⊢
      rw [getDb_all_eq] at h ⊢
      exact afterInit_ran w s _ (fun t ht => ht) h
    | setDbFn keyword value =>
      simp only [touched] at h ⊢
      rw [setDb_eq] at h ⊢
      exact afterInit_ran w s _ (fun t ht => ht) h
    | elementNameFn Z =>
      simp only [touched] at h ⊢
      rw [elementName_eq] at h ⊢
      exact afterInit_ran w s _ (fun t ht => ht) h
    | elementAbundanceNameFn v =>
      simp only [touched] at h ⊢
      rw [elementAbundance_name_eq] at h ⊢
      refine afterInit_ran w s _ (fun t ht => ?_) h
      dsimp only
      split <;> exact ht
    | elementAbundanceZFn Z =>
      simp only [touched] at h ⊢
      rw [elementAbundance_Z_eq] at h ⊢
      refine afterInit_ran w s _ (fun t ht => ?_) h
      dsimp only
      split <;> exact ht
    | getModelStringKeyFn key =>
      simp only [touched] at h ⊢
      rw [getModelString_key_eq] at h ⊢
      refine afterInit_ran w s _ (fun t ht => ?_) h
      dsimp only
      split <;> exact ht
    | getDbKeyFn keyword =>
      simp only [touched] at h ⊢
      rw [getDb_key_eq] at h ⊢
      refine afterInit_ran w s _ (fun t ht => ?_) h
      dsimp only
      split <;> exact ht
    | tableModelFn fn tt p e n =>
      simp only [touched] at h ⊢
      exact tableModel_guard w fn tt p e n s h
    | tableModelInplaceFn fn tt p e o n =>
      simp only [touched] at h ⊢
      exact tableModel_inplace_guard w fn tt p e o n s h
    | wrapperCFn M p e n i =>
      simp only [touched] at h ⊢
      exact wrapper_C_guard M w p e n i s h
    | wrapperInplaceCFn M p e o n i =>
      simp only [touched] at h ⊢
      exact wrapper_inplace_C_guard M w p e o n i s h
    | wrapperFFn M p e n =>
      simp only [touched] at h ⊢
      exact wrapper_F_guard M w p e n s h
    | wrapperInplaceFFn M p e o n =>
      simp only [touched] at h ⊢
      exact wrapper_inplace_F_guard M w p e o n s h
    | wrapperFloatFn M p e n =>
      simp only [touched] at h ⊢
      exact wrapper_f_guard M w p e n s h
    | wrapperInplaceFloatFn M p e o n =>
      simp only [touched] at h ⊢
      exact wrapper_inplace_f_guard M w p e o n s h
    | wrapperConCFn M p e m n i =>
      simp only [touched] at h ⊢
      exact wrapper_con_C_guard M w p e m n i s h
    | wrapperConFloatFn M p e m n =>
      simp only [touched] at h ⊢
      exact wrapper_con_f_guard M w p e m n s h
    | wrapperInplaceCXXFn M p e o n i =>
      simp only [touched] at h ⊢
      exact wrapper_inplace_CXX_guard M w p e o n i s h
  · intro w s
    exact ⟨rfl, rfl, rfl⟩

theorem C9_witness :
    (touched ExportedFn.getVersionFn W0 S0).nativeOps ≠ S0.nativeOps
    ∧ (touched ExportedFn.getVersionFn W0 S0).ran = true :=
  ⟨by decide, C9_lazy_init_guard.1 ExportedFn.getVersionFn W0 S0 (by decide)⟩

/-- C8 counterexample: `elementName` is an atomic-number-keyed element
lookup, yet it performs no range validation: with the guard ready,
looking up atomic number 0 succeeds (forwarding the wrapped `size_t`
index `0 - 1` to the native layer, which here answers `"H"`) and
records the native call, instead of failing with an index error as the
claim requires of every atomic-number-keyed lookup. -/
theorem C8_counterexample :
    (elementName W0 0 S0).2 = Except.ok "H"
    ∧ ((elementName W0 0 S0).1).nativeOps = ["FunctionUtility::elements"] :=
  ⟨rfl, rfl⟩

/-- C8 amended: only the abundance lookup by atomic number
(`elementAbundance(z)`) validates `1 ≤ z ≤ elementCount` up front —
for `z` outside that range it fails with an index error carrying `z`,
recording no native lookup and capturing no stream — while
`elementName(z)` performs no range validation at all and always
forwards the wrapped `z - 1` to the native layer. -/
theorem C8_amended_range_check (w : World) (Z : Nat) (s : XState)
    (hready : initReady w s) :
    (Z < 1 ∨ Z > w.nelems →
      (elementAbundance_Z w Z s).2 = Except.error (IndexOutOfRangeError (toString Z))
      ∧ ((elementAbundance_Z w Z s).1).nativeOps = s.nativeOps
      ∧ ((elementAbundance_Z w Z s).1).cerrRedirects = s.cerrRedirects)
    ∧ (elementName w Z s).2
        = Except.ok (w.elements ((Z + (2 ^ 64 - 1)) % 2 ^ 64)) := by
  obtain ⟨s', e, hran, hops, hcout, hcerr, hnid⟩ := init_ready w s hready
  constructor
  · intro hout
    have hres : elementAbundance_Z w Z s
        = (s', Except.error (IndexOutOfRangeError (toString Z))) := by
      unfold elementAbundance_Z
      rw [e]
      simp [hout]
      omega
    rw [hres]
    exact ⟨rfl, hops, hcerr⟩
  · have hres : elementName w Z s
        = (pushOp "FunctionUtility::elements" s',
            Except.ok (w.elements ((Z + (2 ^ 64 - 1)) % 2 ^ 64))) := by
      unfold elementName
      rw [e]
    rw [hres]

theorem C8_witness :
    ((elementAbundance_Z W0 0 S0).2 = Except.error (IndexOutOfRangeError "0")
      ∧ ((elementAbundance_Z W0 0 S0).1).nativeOps = S0.nativeOps
      ∧ ((elementAbundance_Z W0 0 S0).1).cerrRedirects = S0.cerrRedirects)
    ∧ (elementName W0 0 S0).2 = Except.ok (W0.elements ((0 + (2 ^ 64 - 1)) % 2 ^ 64)) :=
  ⟨(C8_amended_range_check W0 0 S0 (Or.inr ⟨rfl, rfl⟩)).1 (Or.inl (by decide)),
    (C8_amended_range_check W0 0 S0 (Or.inr ⟨rfl, rfl⟩)).2⟩

/-- C10: `RealArray.__getitem__` and `__setitem__` shift a negative
index once by the array length; both fail with an index error exactly
when the adjusted index falls outside `[0, size)`; and a successful
`__setitem__` keeps the length and changes only the addressed cell. -/
theorem C10_realarray_indexing (v : List ℚ) (i : Int) (x : ℚ) :
    ((RealArray_getitem v i = Except.error (IndexOutOfRangeError ""))
      ↔ ((if i < 0 then i + (v.length : Int) else i) < 0
          ∨ (v.length : Int) ≤ (if i < 0 then i + (v.length : Int) else i)))
    ∧ ((RealArray_setitem v i x = Except.error (IndexOutOfRangeError ""))
      ↔ ((if i < 0 then i + (v.length : Int) else i) < 0
          ∨ (v.length : Int) ≤ (if i < 0 then i + (v.length : Int) else i)))
    ∧ (0 ≤ (if i < 0 then i + (v.length : Int) else i) →
       (if i < 0 then i + (v.length : Int) else i) < (v.length : Int) →
        ∃ v', RealArray_setitem v i x = Except.ok v'
          ∧ v'.length = v.length
          ∧ v'.getD (if i < 0 then i + (v.length : Int) else i).toNat 0 = x
          ∧ ∀ m : Nat, m ≠ (if i < 0 then i + (v.length : Int) else i).toNat →
              v'.getD m 0 = v.getD m 0) := by
  refine ⟨?_, ?_, ?_⟩
  · unfold RealArray_getitem
    dsimp only
    constructor
    · intro habs
      by_cases hc : (if i < 0 then i + (v.length : Int) else i) < 0
          ∨ (if i < 0 then i + (v.length : Int) else i) ≥ (v.length : Int)
      · exact hc
      · rw [if_neg hc] at habs
        simp at habs
    · intro hc
      rw [if_pos hc]
  · unfold RealArray_setitem
    dsimp only
    constructor
    · intro habs
      by_cases hc : (if i < 0 then i + (v.length : Int) else i) < 0
          ∨ (if i < 0 then i + (v.length : Int) else i) ≥ (v.length : Int)
      · exact hc
      · rw [if_neg hc] at habs
        simp at habs
    · intro hc
      rw [if_pos hc]
  · intro h0 hlt
    unfold RealArray_setitem
    dsimp only
    rw [if_neg (by omega)]
    refine ⟨v.set (if i < 0 then i + (v.length : Int) else i).toNat x, rfl,
      List.length_set v _ x, ?_, ?_⟩
    · have hlt' : (if i < 0 then i + (v.length : Int) else i).toNat < v.length := by omega
      simp [List.getElem?_set_self hlt']
    · intro m hm
      simp [List.getElem?_set_ne (Ne.symm hm)]

theorem C10_witness :
    ∃ v', RealArray_setitem [1, 2, 3] (-1) 5 = Except.ok v'
      ∧ v'.length = ([1, 2, 3] : List ℚ).length
      ∧ v'.getD 2 0 = 5
      ∧ ∀ m : Nat, m ≠ 2 → v'.getD m 0 = ([1, 2, 3] : List ℚ).getD m 0 :=
  (C10_realarray_indexing [1, 2, 3] (-1) 5).2.2 (by decide) (by decide)

end xspec_models_cxc
